import Mathlib

/-!
Verification development for the LLM test-case generation pipeline
(`src/gtc.py`, `src/gtcUpdated.py`, `src/generated_test_cases.py`).

The repository contains three near-duplicate revisions of the same script.
Each is embedded separately (prefixes `gtc_`, `gtcU_`, `gentc_`), faithful to
its own source.  Python values appearing in parsed JSON and in test-case
records are modelled by `PyVal`; Python `==` (with its numeric tower, where
`True == 1`, `1.0 == 1`, and bool/int/float compare by numeric value) is
modelled by `pyEq`.  Python floats are modelled as exact rationals; the
IEEE-754 rounding of decimal literals is not modelled (every float literal
appearing in a theorem below, such as 1.0 or 0.0, is exactly representable,
so this does not affect any statement).
-/

/-- A Python/JSON value as it appears in parsed model responses:
`None`, `bool`, `int`, `float`, `str`, `list`, `dict`. -/
inductive PyVal where
  | none
  | bool (b : Bool)
  | int (n : Int)
  | float (q : ℚ)
  | str (s : String)
  | list (xs : List PyVal)
  | dict (kvs : List (String × PyVal))

/-- The numeric value of a Python number, if the value is numeric.
In Python, `bool` is a subtype of `int`: `True` has numeric value 1,
`False` has numeric value 0. -/
def numVal : PyVal → Option ℚ
  | .bool b => some (if b then 1 else 0)
  | .int n => some (n : ℚ)
  | .float q => some q
  | _ => Option.none

/-- Python equality restricted against a fixed numeric right operand. -/
def numEqTo (q : ℚ) (w : PyVal) : Bool :=
  match numVal w with
  | some r => q == r
  | Option.none => false

/-- A Python dict with string keys, as an ordered association list with
unique keys (the shape produced by JSON object parsing). -/
abbrev PyRec := List (String × PyVal)

/-- Dict lookup: value at key `k`, if present (keys are unique, so the first
occurrence is the binding). -/
def rlook (d : PyRec) (k : String) : Option PyVal :=
  match d with
  | [] => Option.none
  | (k2, v) :: rest => if k2 = k then some v else rlook rest k

/-- Dict update `d[k] = v`: replaces the value at `k` in place if the key is
present, otherwise appends the new binding (Python dict assignment preserves
insertion order of an existing key). -/
def rsetL (d : PyRec) (k : String) (v : PyVal) : PyRec :=
  match d with
  | [] => [(k, v)]
  | (k2, w) :: rest => if k2 = k then (k2, v) :: rest else (k2, w) :: rsetL rest k v

theorem rlook_rsetL_same (d : PyRec) (k : String) (v : PyVal) :
    rlook (rsetL d k v) k = some v := by
  induction d with
  | nil => simp [rsetL, rlook]
  | cons kv rest ih =>
      obtain ⟨k2, w⟩ := kv
      by_cases h : k2 = k <;> simp [rsetL, rlook, h, ih]

theorem rlook_rsetL_other (d : PyRec) (k k2 : String) (v : PyVal) (h : k2 ≠ k) :
    rlook (rsetL d k v) k2 = rlook d k2 := by
  have hk : ¬ (k = k2) := fun hh => h hh.symm
  induction d with
  | nil => simp [rsetL, rlook, hk]
  | cons kv rest ih =>
      obtain ⟨k3, w⟩ := kv
      by_cases h3 : k3 = k
      · subst h3
        simp [rsetL, rlook, hk]
      · by_cases h2 : k3 = k2
        · subst h2
          simp [rsetL, rlook, h3]
        · simp [rsetL, rlook, h3, h2, ih]

theorem rsetL_rsetL_same (d : PyRec) (k : String) (v w : PyVal) :
    rsetL (rsetL d k v) k w = rsetL d k w := by
  induction d with
  | nil => simp [rsetL]
  | cons kv rest ih =>
      obtain ⟨k2, u⟩ := kv
      by_cases h : k2 = k <;> simp [rsetL, h, ih]

/-- Setting a key to the value it already holds leaves the dict unchanged. -/
theorem rsetL_self (d : PyRec) (k : String) (v : PyVal)
    (h : rlook d k = some v) : rsetL d k v = d := by
  induction d with
  | nil => simp [rlook] at h
  | cons kv rest ih =>
      obtain ⟨k2, w⟩ := kv
      by_cases h2 : k2 = k
      · subst h2
        simp [rlook] at h
        simp [rsetL, h]
      · simp [rlook, h2] at h
        simp [rsetL, h2, ih h]

mutual

/-- Python `==` on values: numbers compare across bool/int/float by numeric
value, strings compare by content, lists elementwise, dicts by size and
key-wise value equality (dict keys are unique, as produced by JSON parsing). -/
def pyEq : PyVal → PyVal → Bool
  | .none, w => (match w with | .none => true | _ => false)
  | .bool b, w => numEqTo (if b then 1 else 0) w
  | .int n, w => numEqTo (n : ℚ) w
  | .float q, w => numEqTo q w
  | .str s, w => (match w with | .str t => s == t | _ => false)
  | .list xs, w => (match w with | .list ys => pyEqL xs ys | _ => false)
  | .dict d, w =>
      (match w with
       | .dict e => d.length == e.length && pyEqD d e
       | _ => false)
termination_by a b => sizeOf a + sizeOf b

/-- Elementwise Python equality of lists. -/
def pyEqL : List PyVal → List PyVal → Bool
  | [], [] => true
  | x :: xs, y :: ys => pyEq x y && pyEqL xs ys
  | _, _ => false
termination_by l1 l2 => sizeOf l1 + sizeOf l2

/-- Every key of the first dict maps to an equal value in the second. -/
def pyEqD : List (String × PyVal) → List (String × PyVal) → Bool
  | [], _ => true
  | (k, v) :: d, e => pyLook k v e && pyEqD d e
termination_by d e => sizeOf d + sizeOf e

/-- Look up key `k` in dict `e` and compare the value found with `v`. -/
def pyLook : String → PyVal → List (String × PyVal) → Bool
  | _, _, [] => false
  | k, v, (k2, v2) :: e => if k = k2 then pyEq v v2 else pyLook k v e
termination_by _k v e => sizeOf v + sizeOf e + 1

end

/-!
Model of `datetime.strptime(s, fmt)` success/failure for the format strings
appearing in the three scripts.  CPython compiles each format directive to a
regex fragment (`_strptime.TimeRE`): `%Y` → `\d\d\d\d`, `%m` →
`1[0-2]|0[1-9]|[1-9]`, `%d` → `3[01]|[12]\d|0[1-9]|[1-9]`, `%H` →
`2[0-3]|[0-1]\d|\d`, `%M` → `[0-5]\d|\d`, `%S` → `6[0-1]|[0-5]\d|\d`,
`%f` → `[0-9]{1,6}`; whitespace in the format becomes `\s+`, other characters
are literal.  The whole input must be consumed ("unconverted data remains"
otherwise), alternatives are tried in regex order with backtracking, and the
matched numbers must then form a valid `datetime` (year ≥ 1, day within the
month, seconds ≤ 59 — the regex alone admits leap seconds 60/61, which the
`datetime` constructor rejects).
-/

/-- One directive of a strptime format string. -/
inductive DTok where
  | lit (c : Char)
  | wsp
  | dY | dm | dd | dH | dM | dS | df

/-- The numeric fields recovered by a strptime match (defaults 1900-01-01). -/
structure DTP where
  y : Nat
  mo : Nat
  dy : Nat
  hh : Nat
  mi : Nat
  ss : Nat
  us : Nat

/-- Default date parts, as CPython uses for directives absent from the format. -/
def dtp0 : DTP := ⟨1900, 1, 1, 0, 0, 0, 0⟩

/-- Characters matched by the regex class `\s` (ASCII range). -/
def isWsRe (c : Char) : Bool :=
  c = ' ' || c = '\t' || c = '\n' || c = '\r' || c = '\x0b' || c = '\x0c'

def isDg (c : Char) : Bool := '0' ≤ c && c ≤ '9'

def dgv (c : Char) : Nat := c.toNat - '0'.toNat

/-- Two-digit alternatives of `%m` (`1[0-2]|0[1-9]`). -/
def two_m : List Char → Option (Nat × List Char)
  | a :: b :: rest =>
      if a = '1' && ('0' ≤ b && b ≤ '2') then some (10 + dgv b, rest)
      else if a = '0' && ('1' ≤ b && b ≤ '9') then some (dgv b, rest)
      else Option.none
  | _ => Option.none

/-- One-digit alternative of `%m` (`[1-9]`). -/
def one_m : List Char → Option (Nat × List Char)
  | a :: rest => if '1' ≤ a && a ≤ '9' then some (dgv a, rest) else Option.none
  | [] => Option.none

/-- Two-digit alternatives of `%d` (`3[01]|[12]\d|0[1-9]`). -/
def two_d : List Char → Option (Nat × List Char)
  | a :: b :: rest =>
      if a = '3' && ('0' ≤ b && b ≤ '1') then some (30 + dgv b, rest)
      else if ('1' ≤ a && a ≤ '2') && isDg b then some (10 * dgv a + dgv b, rest)
      else if a = '0' && ('1' ≤ b && b ≤ '9') then some (dgv b, rest)
      else Option.none
  | _ => Option.none

/-- One-digit alternative of `%d` (`[1-9]`). -/
def one_d : List Char → Option (Nat × List Char) := one_m

/-- Two-digit alternatives of `%H` (`2[0-3]|[0-1]\d`). -/
def two_H : List Char → Option (Nat × List Char)
  | a :: b :: rest =>
      if a = '2' && ('0' ≤ b && b ≤ '3') then some (20 + dgv b, rest)
      else if ('0' ≤ a && a ≤ '1') && isDg b then some (10 * dgv a + dgv b, rest)
      else Option.none
  | _ => Option.none

/-- Two-digit alternative of `%M` (`[0-5]\d`). -/
def two_M : List Char → Option (Nat × List Char)
  | a :: b :: rest =>
      if ('0' ≤ a && a ≤ '5') && isDg b then some (10 * dgv a + dgv b, rest)
      else Option.none
  | _ => Option.none

/-- Two-digit alternatives of `%S` (`6[0-1]|[0-5]\d`). -/
def two_S : List Char → Option (Nat × List Char)
  | a :: b :: rest =>
      if a = '6' && ('0' ≤ b && b ≤ '1') then some (60 + dgv b, rest)
      else if ('0' ≤ a && a ≤ '5') && isDg b then some (10 * dgv a + dgv b, rest)
      else Option.none
  | _ => Option.none

/-- One-digit alternative `\d` of `%H`, `%M`, `%S`. -/
def one_any : List Char → Option (Nat × List Char)
  | a :: rest => if isDg a then some (dgv a, rest) else Option.none
  | [] => Option.none

/-- Exactly four digits (`%Y`). -/
def four_y : List Char → Option (Nat × List Char)
  | a :: b :: c :: d :: rest =>
      if isDg a && isDg b && isDg c && isDg d then
        some (1000 * dgv a + 100 * dgv b + 10 * dgv c + dgv d, rest)
      else Option.none
  | _ => Option.none

/-- Exactly `k` digits, returning their value. -/
def takeDgs : Nat → List Char → Option (Nat × List Char)
  | 0, cs => some (0, cs)
  | _ + 1, [] => Option.none
  | k + 1, c :: cs =>
      if isDg c then
        match takeDgs k cs with
        | some (v, rest) => some (dgv c * 10 ^ k + v, rest)
        | Option.none => Option.none
      else Option.none

mutual

/-- Match a directive list against the input with regex semantics
(ordered alternatives, backtracking), requiring the whole input to be
consumed, and collect the numeric fields. -/
def matchToks : List DTok → List Char → DTP → Option DTP
  | [], cs, p => if cs.isEmpty then some p else Option.none
  | .lit ch :: ts, cs, p =>
      match cs with
      | c :: rest => if c = ch then matchToks ts rest p else Option.none
      | [] => Option.none
  | .wsp :: ts, cs, p =>
      match cs with
      | c :: rest =>
          if isWsRe c then matchToks ts (rest.dropWhile isWsRe) p else Option.none
      | [] => Option.none
  | .dY :: ts, cs, p =>
      match four_y cs with
      | some (v, rest) => matchToks ts rest { p with y := v }
      | Option.none => Option.none
  | .dm :: ts, cs, p =>
      match (match two_m cs with
             | some (v, rest) => matchToks ts rest { p with mo := v }
             | Option.none => Option.none) with
      | some r => some r
      | Option.none =>
          match one_m cs with
          | some (v, rest) => matchToks ts rest { p with mo := v }
          | Option.none => Option.none
  | .dd :: ts, cs, p =>
      match (match two_d cs with
             | some (v, rest) => matchToks ts rest { p with dy := v }
             | Option.none => Option.none) with
      | some r => some r
      | Option.none =>
          match one_d cs with
          | some (v, rest) => matchToks ts rest { p with dy := v }
          | Option.none => Option.none
  | .dH :: ts, cs, p =>
      match (match two_H cs with
             | some (v, rest) => matchToks ts rest { p with hh := v }
             | Option.none => Option.none) with
      | some r => some r
      | Option.none =>
          match one_any cs with
          | some (v, rest) => matchToks ts rest { p with hh := v }
          | Option.none => Option.none
  | .dM :: ts, cs, p =>
      match (match two_M cs with
             | some (v, rest) => matchToks ts rest { p with mi := v }
             | Option.none => Option.none) with
      | some r => some r
      | Option.none =>
          match one_any cs with
          | some (v, rest) => matchToks ts rest { p with mi := v }
          | Option.none => Option.none
  | .dS :: ts, cs, p =>
      match (match two_S cs with
             | some (v, rest) => matchToks ts rest { p with ss := v }
             | Option.none => Option.none) with
      | some r => some r
      | Option.none =>
          match one_any cs with
          | some (v, rest) => matchToks ts rest { p with ss := v }
          | Option.none => Option.none
  | .df :: ts, cs, p => tryFrac 6 ts cs p
termination_by ts _cs _p => (sizeOf ts, 0)

/-- `%f` = `[0-9]{1,6}`: greedily try 6 digits down to 1, backtracking into
the continuation.  A match of `k` digits with value `v` yields microseconds
`v * 10^(6-k)` (CPython right-pads the fraction to six digits). -/
def tryFrac : Nat → List DTok → List Char → DTP → Option DTP
  | 0, _, _, _ => Option.none
  | k + 1, ts, cs, p =>
      match (match takeDgs (k + 1) cs with
             | some (v, rest) => matchToks ts rest { p with us := v * 10 ^ (6 - (k + 1)) }
             | Option.none => Option.none) with
      | some r => some r
      | Option.none => tryFrac k ts cs p
termination_by k ts _cs _p => (sizeOf ts + 1, k)

end

/-- Calendar length of a month (proleptic Gregorian, as Python's `datetime`). -/
def mdays (y mo : Nat) : Nat :=
  if mo = 2 then (if (y % 4 = 0 && y % 100 ≠ 0) || y % 400 = 0 then 29 else 28)
  else if mo = 4 || mo = 6 || mo = 9 || mo = 11 then 30
  else 31

/-- The range checks done by the `datetime` constructor on the matched
fields (the regex already bounds month, hour and minute). -/
def dtpValid (p : DTP) : Bool :=
  1 ≤ p.y && p.dy ≤ mdays p.y p.mo && p.ss ≤ 59

/-- `datetime.strptime(s, fmt)` succeeds (no `ValueError`). -/
def strptimeOk (toks : List DTok) (s : String) : Bool :=
  match matchToks toks s.data dtp0 with
  | some p => dtpValid p
  | Option.none => false

/-- Format `"%Y-%m-%d %H:%M:%S.%f"`. -/
def fmtYmdHMSf : List DTok :=
  [.dY, .lit '-', .dm, .lit '-', .dd, .wsp, .dH, .lit ':', .dM, .lit ':', .dS,
   .lit '.', .df]

/-- Format `"%Y-%m-%d %H:%M:%S"`. -/
def fmtYmdHMS : List DTok :=
  [.dY, .lit '-', .dm, .lit '-', .dd, .wsp, .dH, .lit ':', .dM, .lit ':', .dS]

/-- Format `"%Y-%m-%d"`. -/
def fmtYmd : List DTok := [.dY, .lit '-', .dm, .lit '-', .dd]

/-- Format `"%Y/%m/%d"`. -/
def fmtYmdSlash : List DTok := [.dY, .lit '/', .dm, .lit '/', .dd]

/-- Format `"%m/%d/%Y"`. -/
def fmtMdYSlash : List DTok := [.dm, .lit '/', .dd, .lit '/', .dY]

/-- Format `"%m-%d-%Y"`. -/
def fmtMdYDash : List DTok := [.dm, .lit '-', .dd, .lit '-', .dY]

/-- `gtc.py` Date `valid_formats`, in priority order. -/
def gtc_dateFormats : List (List DTok) :=
  [fmtYmdHMSf, fmtYmdHMS, fmtYmd, fmtYmdSlash, fmtMdYSlash]

/-- `gtcUpdated.py` Date `valid_formats` (all but the first are commented out). -/
def gtcU_dateFormats : List (List DTok) := [fmtYmdHMSf]

/-- `generated_test_cases.py` Date `valid_formats`. -/
def gentc_dateFormats : List (List DTok) :=
  [fmtYmd, fmtMdYSlash, fmtYmdSlash, fmtMdYDash]

/-- `generated_test_cases.py` DateTime `valid_formats`. -/
def gentc_dateTimeFormats : List (List DTok) := [fmtYmdHMSf]

/-!
Model of `json.loads` (strict mode, as all three scripts use it): standard
JSON values, insignificant whitespace `space/\t/\n/\r`, numbers distinguished
as int (no fraction/exponent) vs float, objects built by successive dict
assignment (duplicate keys: last value wins, first position kept), no trailing
commas, control characters under 0x20 forbidden unescaped in strings, and the
whole input must be consumed.  The Python-specific constants `NaN`,
`Infinity`, `-Infinity` are not modelled (no input considered here contains
them, and no claim depends on them); float literals are modelled as exact
rationals.  Lone `\uXXXX` surrogates (which CPython keeps in the `str`) have
no `Char` counterpart and collapse to `'\0'`; no input considered here
contains them.
-/

/-- JSON insignificant whitespace. -/
def isJWs (c : Char) : Bool := c = ' ' || c = '\t' || c = '\n' || c = '\r'

def jskipWs (cs : List Char) : List Char := cs.dropWhile isJWs

def hexv (c : Char) : Option Nat :=
  if '0' ≤ c && c ≤ '9' then some (c.toNat - 48)
  else if 'a' ≤ c && c ≤ 'f' then some (c.toNat - 87)
  else if 'A' ≤ c && c ≤ 'F' then some (c.toNat - 55)
  else Option.none

/-- Single-character string escapes of JSON. -/
def escChar : Char → Option Char
  | '"' => some '"'
  | '\\' => some '\\'
  | '/' => some '/'
  | 'b' => some '\x08'
  | 'f' => some '\x0c'
  | 'n' => some '\n'
  | 'r' => some '\r'
  | 't' => some '\t'
  | _ => Option.none

/-- Four hex digits as a number, if all are valid. -/
def hexv4 (h1 h2 h3 h4 : Char) : Option Nat :=
  match hexv h1, hexv h2, hexv h3, hexv h4 with
  | some a, some b, some c, some d => some (((a * 16 + b) * 16 + c) * 16 + d)
  | _, _, _, _ => Option.none

/-- Parse the body of a JSON string (the opening quote already consumed),
returning the decoded characters and the remaining input.  A `\uXXXX` high
surrogate immediately followed by a `\uXXXX` low surrogate combines into one
character, as in CPython's decoder. -/
def jstrChars : List Char → Option (List Char × List Char)
  | [] => Option.none
  | '"' :: rest => some ([], rest)
  | '\\' :: 'u' :: h1 :: h2 :: h3 :: h4 :: '\\' :: 'u' :: g1 :: g2 :: g3 :: g4 :: rest =>
      (match hexv4 h1 h2 h3 h4 with
       | Option.none => Option.none
       | some v =>
           match (if 0xD800 ≤ v && v ≤ 0xDBFF then hexv4 g1 g2 g3 g4 else Option.none) with
           | some w =>
               if 0xDC00 ≤ w && w ≤ 0xDFFF then
                 match jstrChars rest with
                 | some (out, rem) =>
                     some (Char.ofNat (0x10000 + (v - 0xD800) * 0x400 + (w - 0xDC00))
                             :: out, rem)
                 | Option.none => Option.none
               else
                 match jstrChars ('\\' :: 'u' :: g1 :: g2 :: g3 :: g4 :: rest) with
                 | some (out, rem) => some (Char.ofNat v :: out, rem)
                 | Option.none => Option.none
           | Option.none =>
               match jstrChars ('\\' :: 'u' :: g1 :: g2 :: g3 :: g4 :: rest) with
               | some (out, rem) => some (Char.ofNat v :: out, rem)
               | Option.none => Option.none)
  | '\\' :: 'u' :: h1 :: h2 :: h3 :: h4 :: rest =>
      (match hexv4 h1 h2 h3 h4 with
       | some v =>
           match jstrChars rest with
           | some (out, rem) => some (Char.ofNat v :: out, rem)
           | Option.none => Option.none
       | Option.none => Option.none)
  | '\\' :: e :: rest =>
      (match escChar e with
       | some c =>
           match jstrChars rest with
           | some (out, rem) => some (c :: out, rem)
           | Option.none => Option.none
       | Option.none => Option.none)
  | c :: rest =>
      if c.toNat < 0x20 then Option.none
      else
        match jstrChars rest with
        | some (out, rem) => some (c :: out, rem)
        | Option.none => Option.none
termination_by cs => cs.length
decreasing_by all_goals (simp [List.length_cons] <;> omega)

def natOfDigits (ds : List Char) : Nat := ds.foldl (fun a c => a * 10 + dgv c) 0

/-- One-or-more digits, greedy. -/
def digits1 (cs : List Char) : Option (Nat × List Char) :=
  let ds := cs.takeWhile isDg
  if ds.isEmpty then Option.none else some (natOfDigits ds, cs.dropWhile isDg)

/-- Optional exponent `[eE][+-]?\d+`; on no match the input is untouched. -/
def jexp : List Char → Option (Int × List Char)
  | c :: r =>
      if c = 'e' || c = 'E' then
        match r with
        | '+' :: r2 =>
            (match digits1 r2 with
             | some (n, rest) => some ((n : Int), rest)
             | Option.none => Option.none)
        | '-' :: r2 =>
            (match digits1 r2 with
             | some (n, rest) => some (-(n : Int), rest)
             | Option.none => Option.none)
        | _ =>
            match digits1 r with
            | some (n, rest) => some ((n : Int), rest)
            | Option.none => Option.none
      else Option.none
  | [] => Option.none

/-- Assemble a JSON number from sign, integer digits, fraction digits and
exponent: an int when fraction and exponent are both absent, a float
otherwise. -/
def mkJNum (neg : Bool) (ip fr : List Char) (ex : Option Int) : PyVal :=
  match fr, ex with
  | [], Option.none =>
      .int (if neg then -(natOfDigits ip : Int) else (natOfDigits ip : Int))
  | _, _ =>
      let mant : ℚ := (natOfDigits (ip ++ fr) : ℚ) / 10 ^ fr.length
      let e : ℤ := ex.getD 0
      let q := mant * (10 : ℚ) ^ e
      .float (if neg then -q else q)

/-- Parse a JSON number (`-?(0|[1-9]\d*)(\.\d+)?([eE][+-]?\d+)?`); the
fraction and exponent parts only bind when complete, otherwise their
characters are left unconsumed (as with the regex the Python scanner uses). -/
def jnum (cs : List Char) : Option (PyVal × List Char) :=
  let (neg, cs1) : Bool × List Char :=
    match cs with
    | '-' :: r => (true, r)
    | _ => (false, cs)
  let ipr : Option (List Char × List Char) :=
    match cs1 with
    | '0' :: r => some (['0'], r)
    | c :: r =>
        if '1' ≤ c && c ≤ '9' then some (c :: r.takeWhile isDg, r.dropWhile isDg)
        else Option.none
    | [] => Option.none
  match ipr with
  | Option.none => Option.none
  | some (ip, cs2) =>
      let frr : List Char × List Char :=
        match cs2 with
        | '.' :: r =>
            let ds := r.takeWhile isDg
            if ds.isEmpty then ([], cs2) else (ds, r.dropWhile isDg)
        | _ => ([], cs2)
      let fr := frr.1
      let cs3 := frr.2
      match jexp cs3 with
      | some (e, cs4) => some (mkJNum neg ip fr (some e), cs4)
      | Option.none => some (mkJNum neg ip fr Option.none, cs3)

mutual

/-- Parse one JSON value starting at the first non-whitespace character.
The fuel strictly exceeds the maximal possible recursion depth for the
given input (each two nested calls consume at least one character), so the
out-of-fuel branch is unreachable on any actual input. -/
def jval : Nat → List Char → Option (PyVal × List Char)
  | 0, _ => Option.none
  | fuel + 1, cs =>
      match cs with
      | 'n' :: 'u' :: 'l' :: 'l' :: rest => some (.none, rest)
      | 't' :: 'r' :: 'u' :: 'e' :: rest => some (.bool true, rest)
      | 'f' :: 'a' :: 'l' :: 's' :: 'e' :: rest => some (.bool false, rest)
      | '"' :: rest =>
          (match jstrChars rest with
           | some (out, rem) => some (.str (String.mk out), rem)
           | Option.none => Option.none)
      | '[' :: rest =>
          (match jskipWs rest with
           | ']' :: rest2 => some (.list [], rest2)
           | r =>
               match jarrItems fuel r with
               | some (vs, rest2) => some (.list vs, rest2)
               | Option.none => Option.none)
      | '{' :: rest =>
          (match jskipWs rest with
           | '}' :: rest2 => some (.dict [], rest2)
           | r =>
               match jobjItems fuel r [] with
               | some (d, rest2) => some (.dict d, rest2)
               | Option.none => Option.none)
      | _ => jnum cs

/-- Comma-separated array items; a comma must be followed by a value, so a
trailing comma before `]` is a parse error. -/
def jarrItems : Nat → List Char → Option (List PyVal × List Char)
  | 0, _ => Option.none
  | fuel + 1, cs =>
      match jval fuel cs with
      | Option.none => Option.none
      | some (v, rest) =>
          match jskipWs rest with
          | ']' :: rest2 => some ([v], rest2)
          | ',' :: rest2 =>
              (match jarrItems fuel (jskipWs rest2) with
               | some (vs, rest3) => some (v :: vs, rest3)
               | Option.none => Option.none)
          | _ => Option.none

/-- Object members: string key, colon, value; members accumulate by dict
assignment (`rsetL`), so duplicate keys keep the first position with the
last value, as Python's dict construction does. -/
def jobjItems : Nat → List Char → PyRec → Option (PyRec × List Char)
  | 0, _, _ => Option.none
  | fuel + 1, cs, acc =>
      match cs with
      | '"' :: rest =>
          (match jstrChars rest with
           | Option.none => Option.none
           | some (kcs, rest2) =>
               match jskipWs rest2 with
               | ':' :: rest3 =>
                   (match jval fuel (jskipWs rest3) with
                    | Option.none => Option.none
                    | some (v, rest4) =>
                        let acc2 := rsetL acc (String.mk kcs) v
                        match jskipWs rest4 with
                        | '}' :: rest5 => some (acc2, rest5)
                        | ',' :: rest5 => jobjItems fuel (jskipWs rest5) acc2
                        | _ => Option.none)
               | _ => Option.none)
      | _ => Option.none

end

/-- `json.loads` on a character list: skip whitespace, parse one value,
require the rest to be whitespace only ("Extra data" otherwise). -/
def jsonParse (cs : List Char) : Option PyVal :=
  let t := jskipWs cs
  match jval (t.length * 2 + 8) t with
  | some (v, rest) => if (jskipWs rest).isEmpty then some v else Option.none
  | Option.none => Option.none

/-!
String-manipulation utilities used by the response pipelines: Python
`str.replace`/`str.strip` and the concrete regex substitutions each script
performs.  Whitespace classes are modelled over their ASCII range (the
inputs these scripts handle are model-generated JSON text).
-/

/-- `pat` is a prefix of the input. -/
def leadsWith : List Char → List Char → Bool
  | [], _ => true
  | _ :: _, [] => false
  | p :: ps, c :: cs => p == c && leadsWith ps cs

/-- `pat` occurs somewhere in the input (Python `pat in s`). -/
def hasSub (pat : List Char) : List Char → Bool
  | [] => pat.isEmpty
  | c :: rest => leadsWith pat (c :: rest) || hasSub pat rest

/-- Python `s.replace(pat, "")`: delete non-overlapping occurrences of `pat`,
scanning left to right. -/
def removeSub (pat : List Char) : List Char → List Char
  | [] => []
  | c :: rest =>
      if !pat.isEmpty && leadsWith pat (c :: rest) then
        removeSub pat ((c :: rest).drop pat.length)
      else c :: removeSub pat rest
termination_by cs => cs.length
decreasing_by
  all_goals simp_all [List.length_cons, List.length_drop, List.isEmpty_iff]
  all_goals cases pat <;> simp_all [List.length_cons] <;> omega

/-- Python `s.strip()` over the ASCII whitespace range. -/
def pyStrip (cs : List Char) : List Char :=
  ((cs.dropWhile isWsRe).reverse.dropWhile isWsRe).reverse

/-- `gtc.py`'s `re.sub(r'\\([^"\\])', r'\\\\\1', s)`: a backslash followed by
any character other than `"` or `\` is doubled; at a non-match the scan
advances one character. -/
def backslashFix : List Char → List Char
  | '\\' :: c :: rest =>
      if c = '"' || c = '\\' then '\\' :: backslashFix (c :: rest)
      else '\\' :: '\\' :: c :: backslashFix rest
  | c :: rest => c :: backslashFix rest
  | [] => []

/-- `gtcUpdated.py`'s `re.sub(r'^```json\s*', '', s, flags=IGNORECASE)`:
anchored at the start of the string only. -/
def stripFenceHead (cs : List Char) : List Char :=
  match cs with
  | '`' :: '`' :: '`' :: c1 :: c2 :: c3 :: c4 :: rest =>
      if (c1 = 'j' || c1 = 'J') && (c2 = 's' || c2 = 'S') &&
         (c3 = 'o' || c3 = 'O') && (c4 = 'n' || c4 = 'N') then
        rest.dropWhile isWsRe
      else cs
  | _ => cs

/-- `gtcUpdated.py`'s `re.sub(r'\s*```$', '', s)` (no MULTILINE): `$` matches
at the end of the string or just before a sole trailing newline, and the
backticks must sit immediately before `$`, preceded by optional whitespace
that is removed with them. -/
def stripFenceEnd (cs : List Char) : List Char :=
  match cs.reverse with
  | '\n' :: r2 =>
      (match r2 with
       | '`' :: '`' :: '`' :: r3 => ('\n' :: r3.dropWhile isWsRe).reverse
       | _ => cs)
  | '`' :: '`' :: '`' :: r3 => (r3.dropWhile isWsRe).reverse
  | _ => cs

/-- `gtcUpdated.py`'s `re.sub(r',\s*(\}|\])', r'\1', s)`: a comma followed by
optional whitespace and a closing bracket is dropped together with that
whitespace; scanning resumes after the bracket. -/
def removeTrailingCommas : List Char → List Char
  | [] => []
  | ',' :: rest =>
      (match h : rest.dropWhile isWsRe with
       | c :: rest2 =>
           if c = '}' || c = ']' then c :: removeTrailingCommas rest2
           else ',' :: removeTrailingCommas rest
       | [] => ',' :: removeTrailingCommas rest)
  | c :: rest => c :: removeTrailingCommas rest
termination_by cs => cs.length
decreasing_by
  all_goals simp [List.length_cons]
  all_goals try omega
  have h2 : (rest.dropWhile isWsRe).length ≤ rest.length :=
    (List.dropWhile_sublist isWsRe).length_le
  rw [h] at h2
  simp [List.length_cons] at h2
  omega

/-- Regex word characters `\w` (ASCII range). -/
def isWordCh (c : Char) : Bool :=
  ('a' ≤ c && c ≤ 'z') || ('A' ≤ c && c ≤ 'Z') || ('0' ≤ c && c ≤ '9') || c = '_'

/-- Case-insensitive prefix test. -/
def ciLeads : List Char → List Char → Bool
  | [], _ => true
  | _ :: _, [] => false
  | p :: ps, c :: cs => p.toLower == c.toLower && ciLeads ps cs

/-- ASCII lowercase of a character (Python `str.lower()` restricted to the
ASCII range the tokens here live in). -/
def lowerAsc (c : Char) : Char :=
  if 'A' ≤ c && c ≤ 'Z' then Char.ofNat (c.toNat + 32) else c

/-- Python `s.lower()` over ASCII. -/
def strLower (s : String) : String := String.mk (s.data.map lowerAsc)

/-- A `\b` boundary holds against this neighbouring character (absent = edge
of string). -/
def wordBoundOk : Option Char → Bool
  | Option.none => true
  | some c => !isWordCh c

/-- `re.sub(r'\bWORD\b', repl, s, flags=IGNORECASE)` for a fixed all-letter
word, scanning left to right with `prev` the character before the current
position in the original string. -/
def wordSub (w repl : List Char) : Option Char → List Char → List Char
  | _, [] => []
  | prev, c :: rest =>
      if !w.isEmpty && wordBoundOk prev && ciLeads w (c :: rest) &&
         wordBoundOk ((c :: rest).drop w.length).head? then
        repl ++ wordSub w repl (some (((c :: rest).take w.length).getLastD c))
          ((c :: rest).drop w.length)
      else c :: wordSub w repl (some c) rest
termination_by _prev cs => cs.length
decreasing_by
  all_goals simp_all [List.length_cons, List.length_drop, List.isEmpty_iff]
  all_goals cases w <;> simp_all [List.length_cons] <;> omega

/-!
Per-record validation.  Python exceptions (`TypeError` from `field in case`
on a non-container, `KeyError` from a missing subscript, `AttributeError`
from `.lower()` on a non-string) are collapsed into `PyRes.exn`; each
`_parse_llm_response` catches them with its blanket `except` and returns
`None`.  Diagnostic message strings follow the source literals; where the
source interpolates a value, `pyToStr` renders it (its float rendering is
cosmetic and differs from CPython's `repr`; no claim inspects messages).
-/

/-- Outcome of a Python expression: a value, or a raised exception. -/
inductive PyRes (α : Type) where
  | ok (a : α)
  | exn

/-- Python `name in case` for the containers a parsed JSON value can be:
key test for dicts, substring test for strings, element test for lists, and
`TypeError` for anything else (numbers, booleans, `None`). -/
def pyIn (name : String) : PyVal → PyRes Bool
  | .dict d => .ok (d.any (fun kv => kv.1 == name))
  | .str s => .ok (hasSub name.data s.data)
  | .list xs => .ok (xs.any (fun v => pyEq (.str name) v))
  | _ => .exn

/-- Python `case[k]`: dict lookup (`KeyError` if absent), `TypeError` for a
string-subscripted non-dict. -/
def pySub (case : PyVal) (k : String) : PyRes PyVal :=
  match case with
  | .dict d =>
      (match rlook d k with
       | some v => .ok v
       | Option.none => .exn)
  | _ => .exn

/-- `all(field in test_case for field in ["test_case", "description",
"expected_result", "input"])`, with the generator's short-circuiting. -/
def keysAll (case : PyVal) : PyRes Bool :=
  match pyIn "test_case" case with
  | .exn => .exn
  | .ok false => .ok false
  | .ok true =>
      match pyIn "description" case with
      | .exn => .exn
      | .ok false => .ok false
      | .ok true =>
          match pyIn "expected_result" case with
          | .exn => .exn
          | .ok false => .ok false
          | .ok true => pyIn "input" case

/-- Diagnostic rendering of a value (Python `str()`, approximated: the float
and container renderings are cosmetic and no claim depends on them). -/
def pyToStr : PyVal → String
  | .none => "None"
  | .bool true => "True"
  | .bool false => "False"
  | .int n => toString n
  | .float q => toString q
  | .str s => s
  | .list _ => "[...]"
  | .dict _ => "\x7b...\x7d"

/-- The `ok` component of a validator result; an exception counts as not-ok
(used only to phrase theorems, never reached on the inputs they quantify
over without an explicit hypothesis). -/
def okOf : PyRes (Bool × String) → Bool
  | .ok (b, _) => b
  | .exn => false

/-! gtc.py validators -/

/-- `gtc.py _validate_date_format`: `None` passes; a string must parse under
one of the five `Date` formats; anything else fails outright. -/
def gtc_validate_date_format (case : PyVal) : PyRes (Bool × String) :=
  match pySub case "input" with
  | .exn => .exn
  | .ok .none => .ok (true, "")
  | .ok (.str s) =>
      if gtc_dateFormats.any (fun f => strptimeOk f s) then .ok (true, "")
      else .ok (false, "Invalid date format. Expected formats: " ++
        "['%Y-%m-%d %H:%M:%S.%f', '%Y-%m-%d %H:%M:%S', '%Y-%m-%d', " ++
        "'%Y/%m/%d', '%m/%d/%Y']")
  | .ok _ => .ok (false, "Date input must be a string")

/-- `gtc.py _validate_string_format`: `None` passes; a non-string input fails
only when `expected_result == "Pass"`. -/
def gtc_validate_string_format (case : PyVal) : PyRes (Bool × String) :=
  match pySub case "input" with
  | .exn => .exn
  | .ok .none => .ok (true, "")
  | .ok (.str _) => .ok (true, "")
  | .ok _ =>
      match pySub case "expected_result" with
      | .exn => .exn
      | .ok er =>
          if pyEq er (.str "Pass") then
            .ok (false, "String field with non-string input should fail")
          else .ok (true, "")

/-- The `valid_booleans` list of `gtc.py`, in source order. -/
def validBooleans : List PyVal :=
  [.bool true, .bool false, .str "True", .str "False", .str "true", .str "false",
   .int 1, .int 0]

/-- `gtc.py _validate_boolean_format`: `None` passes; a `Pass` record whose
input is not `==`-equal to a member of `valid_booleans` fails. -/
def gtc_validate_boolean_format (case : PyVal) : PyRes (Bool × String) :=
  match pySub case "input" with
  | .exn => .exn
  | .ok .none => .ok (true, "")
  | .ok inp =>
      match pySub case "expected_result" with
      | .exn => .exn
      | .ok er =>
          if pyEq er (.str "Pass") && !(validBooleans.any (fun b => pyEq inp b)) then
            .ok (false, "Boolean field with non-boolean input (" ++ pyToStr inp ++
              ") should fail. Valid values: [True, False, 'True', 'False', " ++
              "'true', 'false', 1, 0]")
          else .ok (true, "")

/-- `gtc.py`'s dispatch on `data_type in self.field_specific_rules`
(keys `Date`, `String`, `Boolean`); unknown types pass. -/
def gtc_type_validate (case : PyVal) (dtype : PyVal) : PyRes (Bool × String) :=
  if pyEq dtype (.str "Date") then gtc_validate_date_format case
  else if pyEq dtype (.str "String") then gtc_validate_string_format case
  else if pyEq dtype (.str "Boolean") then gtc_validate_boolean_format case
  else .ok (true, "")

/-- `gtc.py _validate_test_case`: the four keys must be present,
`expected_result` must be exactly `"Pass"` or `"Fail"` (list membership by
`==`), then the type-specific validation runs. -/
def gtc_validate_test_case (case : PyVal) (dtype : PyVal) : PyRes (Bool × String) :=
  match keysAll case with
  | .exn => .exn
  | .ok false => .ok (false, "Missing required fields")
  | .ok true =>
      match pySub case "expected_result" with
      | .exn => .exn
      | .ok er =>
          if !(pyEq er (.str "Pass") || pyEq er (.str "Fail")) then
            .ok (false, "Invalid expected_result value")
          else gtc_type_validate case dtype

/-! gtcUpdated.py validators -/

/-- `gtcUpdated.py _validate_date_format`: `None` passes; a string parsing
under some format passes; a non-matching string or a non-string input is
invalid only when `expected_result == "Pass"`. -/
def gtcU_validate_date_format (case : PyVal) : PyRes (Bool × String) :=
  match pySub case "input" with
  | .exn => .exn
  | .ok .none => .ok (true, "")
  | .ok (.str s) =>
      if gtcU_dateFormats.any (fun f => strptimeOk f s) then .ok (true, "")
      else
        match pySub case "expected_result" with
        | .exn => .exn
        | .ok er =>
            if pyEq er (.str "Pass") then
              .ok (false, "Invalid date format. Expected one of: " ++
                "['%Y-%m-%d %H:%M:%S.%f']")
            else .ok (true, "")
  | .ok _ =>
      match pySub case "expected_result" with
      | .exn => .exn
      | .ok er =>
          if pyEq er (.str "Pass") then
            .ok (false, "Date input must be a string for a 'Pass' case " ++
              "(unless None is explicitly allowed)")
          else .ok (true, "")

/-- `gtcUpdated.py _validate_string_format`. -/
def gtcU_validate_string_format (case : PyVal) : PyRes (Bool × String) :=
  match pySub case "input" with
  | .exn => .exn
  | .ok .none => .ok (true, "")
  | .ok (.str _) => .ok (true, "")
  | .ok _ =>
      match pySub case "expected_result" with
      | .exn => .exn
      | .ok er =>
          if pyEq er (.str "Pass") then
            .ok (false, "Input is not a string, but expected result is 'Pass'.")
          else .ok (true, "")

/-- Python `isinstance(x, (str, type(None)))`. -/
def isStrOrNone : PyVal → Bool
  | .str _ => true
  | .none => true
  | _ => false

/-- Python `isinstance(x, type(None))`. -/
def isNoneV : PyVal → Bool
  | .none => true
  | _ => false

/-- Python `isinstance(x, int)` — true for `bool` as well, since `bool` is a
subclass of `int`. -/
def isIntLike : PyVal → Bool
  | .int _ => true
  | .bool _ => true
  | _ => false

/-- Python `isinstance(x, (int, float))` (again including `bool`). -/
def isNumLike : PyVal → Bool
  | .int _ => true
  | .bool _ => true
  | .float _ => true
  | _ => false

/-- `gtcUpdated.py`'s type-specific stage: dispatch to the `Date`/`String`
validators (returning their error on failure), then the fallback
`String`/`Integer`/`Number` isinstance checks on `Pass` records. -/
def gtcU_type_validate (case : PyVal) (dtype : PyVal) : PyRes (Bool × String) :=
  let disp : PyRes (Bool × String) :=
    if pyEq dtype (.str "Date") then gtcU_validate_date_format case
    else if pyEq dtype (.str "String") then gtcU_validate_string_format case
    else .ok (true, "")
  match disp with
  | .exn => .exn
  | .ok (false, m) => .ok (false, m)
  | .ok (true, _) =>
      match pySub case "input" with
      | .exn => .exn
      | .ok inp =>
          match pySub case "expected_result" with
          | .exn => .exn
          | .ok er =>
              if pyEq dtype (.str "String") && !isStrOrNone inp &&
                 pyEq er (.str "Pass") then
                .ok (false, "Input '" ++ pyToStr inp ++
                  "' is not a string or null, but expected result is 'Pass'.")
              else if pyEq dtype (.str "Integer") &&
                  !(isIntLike inp || isNoneV inp) &&
                  pyEq er (.str "Pass") then
                .ok (false, "Input '" ++ pyToStr inp ++
                  "' is not an integer or null, but expected result is 'Pass'.")
              else if pyEq dtype (.str "Number") &&
                  !(isNumLike inp || isNoneV inp) &&
                  pyEq er (.str "Pass") then
                .ok (false, "Input '" ++ pyToStr inp ++
                  "' is not a number or null, but expected result is 'Pass'.")
              else .ok (true, "")

/-- `gtcUpdated.py _validate_test_case`. -/
def gtcU_validate_test_case (case : PyVal) (dtype : PyVal) : PyRes (Bool × String) :=
  match keysAll case with
  | .exn => .exn
  | .ok false => .ok (false, "Missing required keys")
  | .ok true =>
      match pySub case "expected_result" with
      | .exn => .exn
      | .ok er =>
          if !(pyEq er (.str "Pass") || pyEq er (.str "Fail")) then
            .ok (false, "Invalid expected_result value: '" ++ pyToStr er ++
              "'. Must be 'Pass' or 'Fail'.")
          else gtcU_type_validate case dtype

/-! generated_test_cases.py cleaning and validators -/

def isAlphaCh (c : Char) : Bool := ('a' ≤ c && c ≤ 'z') || ('A' ≤ c && c ≤ 'Z')

/-- `re.sub(r'^```[a-zA-Z]*\s*', '', s, flags=re.MULTILINE)`: at each line
start, a backtick fence with an optional language tag and following
whitespace (the greedy `\s*` may span newlines) is removed; the flag records
whether the current position follows a newline in the original string. -/
def gentcFenceA : Bool → List Char → List Char
  | _, [] => []
  | atLS, c :: rest =>
      if atLS && leadsWith ['`', '`', '`'] (c :: rest) then
        gentcFenceA
          ((((((c :: rest).drop 3).dropWhile isAlphaCh).takeWhile isWsRe).getLastD 'x')
            == '\n')
          ((((c :: rest).drop 3).dropWhile isAlphaCh).dropWhile isWsRe)
      else c :: gentcFenceA (c == '\n') rest
termination_by _atLS cs => cs.length
decreasing_by
  all_goals simp [List.length_cons]
  all_goals try omega
  have h1 := (@List.dropWhile_sublist Char (rest.drop 2) isAlphaCh).length_le
  have h2 :=
    (@List.dropWhile_sublist Char ((rest.drop 2).dropWhile isAlphaCh) isWsRe).length_le
  have h3 := List.length_drop 2 rest
  omega

/-- Index of the last `'\n'` of `w`, if any. -/
def lastNlIdx (w : List Char) : Option Nat :=
  (w.reverse.findIdx? (fun c => c = '\n')).map (fun j => w.length - 1 - j)

/-- `re.sub(r'```\s*$', '', s, flags=re.MULTILINE)`: a fence followed by
whitespace is removed when, after consuming the longest whitespace prefix
that leaves the position at a line end (`$` = end of string or before a
newline), the match succeeds; otherwise the scan advances one character. -/
def gentcFenceB : List Char → List Char
  | [] => []
  | c :: rest =>
      if leadsWith ['`', '`', '`'] (c :: rest) then
        if (((c :: rest).drop 3).dropWhile isWsRe).isEmpty then []
        else
          match lastNlIdx (((c :: rest).drop 3).takeWhile isWsRe) with
          | some i =>
              gentcFenceB ((((c :: rest).drop 3).takeWhile isWsRe).drop i ++
                (((c :: rest).drop 3).dropWhile isWsRe))
          | Option.none => c :: gentcFenceB rest
      else c :: gentcFenceB rest
termination_by cs => cs.length
decreasing_by
  all_goals simp [List.length_cons, List.length_append]
  all_goals try omega
  have h1 := (@List.dropWhile_sublist Char (rest.drop 2) isWsRe).length_le
  have h2 : ((rest.drop 2).takeWhile isWsRe).length +
      ((rest.drop 2).dropWhile isWsRe).length = (rest.drop 2).length := by
    rw [← List.length_append, List.takeWhile_append_dropWhile]
  have h3 := List.length_drop 2 rest
  omega

/-- `re.search(r'\[.*\]', s, re.DOTALL)`: with the greedy `.*`, the match
spans from the first `'['` to the last `']'` of the string, provided that
`']'` lies after the `'['`. -/
def bracketSpan (cs : List Char) : Option (List Char) :=
  match cs.findIdx? (fun c => c = '[') with
  | Option.none => Option.none
  | some i =>
      match (cs.drop i).reverse.findIdx? (fun c => c = ']') with
      | Option.none => Option.none
      | some j => some ((cs.drop i).take ((cs.drop i).length - j))

/-- `generated_test_cases.py _validate_long_format`: `None` passes; a
non-`int` input (bool counts as int in Python) fails only on `Pass`. -/
def gentc_validate_long_format (case : PyVal) : PyRes (Bool × String) :=
  match pySub case "input" with
  | .exn => .exn
  | .ok .none => .ok (true, "")
  | .ok inp =>
      if isIntLike inp then .ok (true, "")
      else
        match pySub case "expected_result" with
        | .exn => .exn
        | .ok er =>
            if pyEq er (.str "Pass") then
              .ok (false, "Long field with non-integer input should fail")
            else .ok (true, "")

/-- `generated_test_cases.py _validate_date_format(test_case, data_type)`:
like `gtc.py`'s, with the format table selected by the `data_type`
argument.  Note that the dispatch table invokes the bound method with a
single argument, so `data_type` always keeps its default `"Date"` there. -/
def gentc_validate_date_format (case : PyVal) (dtArg : String) : PyRes (Bool × String) :=
  match pySub case "input" with
  | .exn => .exn
  | .ok .none => .ok (true, "")
  | .ok (.str s) =>
      if (if dtArg = "DateTime" then gentc_dateTimeFormats else gentc_dateFormats).any
           (fun f => strptimeOk f s) then .ok (true, "")
      else .ok (false, "Invalid date format. Expected formats: " ++
        (if dtArg = "DateTime" then "['%Y-%m-%d %H:%M:%S.%f']"
         else "['%Y-%m-%d', '%m/%d/%Y', '%Y/%m/%d', '%m-%d-%Y']"))
  | .ok _ => .ok (false, dtArg ++ " input must be a string")

/-- `generated_test_cases.py _validate_string_format` (identical in text to
`gtc.py`'s). -/
def gentc_validate_string_format (case : PyVal) : PyRes (Bool × String) :=
  match pySub case "input" with
  | .exn => .exn
  | .ok .none => .ok (true, "")
  | .ok (.str _) => .ok (true, "")
  | .ok _ =>
      match pySub case "expected_result" with
      | .exn => .exn
      | .ok er =>
          if pyEq er (.str "Pass") then
            .ok (false, "String field with non-string input should fail")
          else .ok (true, "")

/-- `generated_test_cases.py`'s dispatch (keys `Date`, `String`, `DateTime`,
`Long`); both date rules invoke `_validate_date_format(test_case)`, whose
`data_type` parameter therefore stays at its default `"Date"` even for
`DateTime` fields; unknown types pass. -/
def gentc_type_validate (case : PyVal) (dtype : PyVal) : PyRes (Bool × String) :=
  if pyEq dtype (.str "Date") then gentc_validate_date_format case "Date"
  else if pyEq dtype (.str "String") then gentc_validate_string_format case
  else if pyEq dtype (.str "DateTime") then gentc_validate_date_format case "Date"
  else if pyEq dtype (.str "Long") then gentc_validate_long_format case
  else .ok (true, "")

/-- `generated_test_cases.py _validate_test_case`. -/
def gentc_validate_test_case (case : PyVal) (dtype : PyVal) : PyRes (Bool × String) :=
  match keysAll case with
  | .exn => .exn
  | .ok false => .ok (false, "Missing required fields")
  | .ok true =>
      match pySub case "expected_result" with
      | .exn => .exn
      | .ok er =>
          if !(pyEq er (.str "Pass") || pyEq er (.str "Fail")) then
            .ok (false, "Invalid expected_result value")
          else gentc_type_validate case dtype

/-!
The record-processing loops of the three `_parse_llm_response` methods, as a
per-element step folded over the parsed array.  A raised exception anywhere
in the loop unwinds to the method's blanket `except` handler, which returns
`None` and discards records already accepted.
-/

/-- One iteration of `gtc.py`'s loop: validate, then canonicalise
`expected_result` (at this point validation guarantees it is the string
`"Pass"` or `"Fail"`, so `.lower()` cannot raise) and keep the record. -/
def gtc_step (dtype : PyVal) (case : PyVal) : PyRes (Option PyVal) :=
  match gtc_validate_test_case case dtype with
  | .exn => .exn
  | .ok (false, _) => .ok Option.none
  | .ok (true, _) =>
      match case with
      | .dict d =>
          (match rlook d "expected_result" with
           | some (.str s) =>
               .ok (some (.dict (rsetL d "expected_result"
                 (.str (if strLower s = "pass" then "Pass" else "Fail")))))
           | _ => .exn)
      | _ => .exn

/-- One iteration of `generated_test_cases.py`'s loop (same shape as
`gtc.py`'s, with its own validator). -/
def gentc_step (dtype : PyVal) (case : PyVal) : PyRes (Option PyVal) :=
  match gentc_validate_test_case case dtype with
  | .exn => .exn
  | .ok (false, _) => .ok Option.none
  | .ok (true, _) =>
      match case with
      | .dict d =>
          (match rlook d "expected_result" with
           | some (.str s) =>
               .ok (some (.dict (rsetL d "expected_result"
                 (.str (if strLower s = "pass" then "Pass" else "Fail")))))
           | _ => .exn)
      | _ => .exn

/-- One iteration of `gtcUpdated.py`'s loop: skip non-dict elements with a
warning; canonicalise a string `expected_result` case-insensitively *before*
validation; validate; ensure the `input` key exists; keep the record. -/
def gtcU_step (dtype : PyVal) (case : PyVal) : PyRes (Option PyVal) :=
  match case with
  | .dict d =>
      let d1 : PyRec :=
        match rlook d "expected_result" with
        | some (.str s) =>
            if strLower s = "pass" then rsetL d "expected_result" (.str "Pass")
            else if strLower s = "fail" then rsetL d "expected_result" (.str "Fail")
            else d
        | _ => d
      (match gtcU_validate_test_case (.dict d1) dtype with
       | .exn => .exn
       | .ok (false, _) => .ok Option.none
       | .ok (true, _) =>
           .ok (some (.dict (if (rlook d1 "input").isSome then d1
                             else rsetL d1 "input" PyVal.none))))
  | _ => .ok Option.none

/-- Fold a step over the parsed array, collecting kept records in order;
an exception aborts the whole loop. -/
def runSteps (step : PyVal → PyRes (Option PyVal)) : List PyVal → PyRes (List PyVal)
  | [] => .ok []
  | c :: cs =>
      match step c with
      | .exn => .exn
      | .ok Option.none => runSteps step cs
      | .ok (some r) =>
          match runSteps step cs with
          | .exn => .exn
          | .ok rest => .ok (r :: rest)

/-- `gtc.py _parse_llm_response`: delete the fence markers, strip, double
lone backslashes, `json.loads`; a non-list value raises (caught: `None`);
then the validation loop, whose result may legitimately be empty. -/
def gtc_parse_llm_response (response : String) (dtype : PyVal) : Option (List PyVal) :=
  match jsonParse (backslashFix (pyStrip
      (removeSub "```".data (removeSub "```json".data response.data)))) with
  | some (.list cs) =>
      (match runSteps (gtc_step dtype) cs with
       | .exn => Option.none
       | .ok out => some out)
  | some _ => Option.none
  | Option.none => Option.none

/-- The cleaning passes of `gtcUpdated.py _parse_llm_response`, in source
order: anchored fence strip at both ends, strip, trailing-comma removal,
and case-insensitive word substitutions `None`→`null`, `True`→`true`,
`False`→`false`. -/
def gtcU_clean (response : String) : List Char :=
  wordSub "false".data "false".data Option.none
    (wordSub "true".data "true".data Option.none
      (wordSub "none".data "null".data Option.none
        (removeTrailingCommas
          (pyStrip (stripFenceEnd (stripFenceHead response.data))))))

/-- `gtcUpdated.py _parse_llm_response`: clean; empty text → `None`;
`json.loads`; a dict with exactly one key holding a list is unwrapped,
otherwise a non-list raises (caught: `None`); then the loop — and an empty
validated list also returns `None`. -/
def gtcU_parse_llm_response (response : String) (dtype : PyVal) : Option (List PyVal) :=
  let t := gtcU_clean response
  if t.isEmpty then Option.none
  else
    match jsonParse t with
    | Option.none => Option.none
    | some v =>
        match (match v with
               | .list cs => some cs
               | .dict [(_, .list cs)] => some cs
               | _ => Option.none : Option (List PyVal)) with
        | Option.none => Option.none
        | some cs =>
            match runSteps (gtcU_step dtype) cs with
            | .exn => Option.none
            | .ok [] => Option.none
            | .ok (r :: out) => some (r :: out)

/-- `generated_test_cases.py _parse_llm_response`: strip; MULTILINE fence
subs; strip; take the `\[.*\]` span if one matches; `json.loads`; non-list
raises (caught: `None`); then the validation loop (result may be empty). -/
def gentc_parse_llm_response (response : String) (dtype : PyVal) : Option (List PyVal) :=
  let t1 := pyStrip (gentcFenceB (gentcFenceA true (pyStrip response.data)))
  let t2 := match bracketSpan t1 with
            | some sp => sp
            | Option.none => t1
  match jsonParse t2 with
  | some (.list cs) =>
      (match runSteps (gentc_step dtype) cs with
       | .exn => Option.none
       | .ok out => some out)
  | some _ => Option.none
  | Option.none => Option.none

/-!
Orchestrators (`generate_test_cases` of each script).  The opaque model-call
boundary is a function from the field being processed and the attempt index
to an outcome — a returned text or a raised fault (`llm.py`'s wrapper in
fact catches its own exceptions and returns `None`, modelled like an empty
string, but each orchestrator's `except` arm is embedded as written).  The
prompt text, built by `_generate_prompt` from the same field attributes, is
consumed only by that opaque call and is not reconstructed: nothing any
claim concerns depends on its content.  Rules input is taken already shaped
as parent → fields → attribute record; file I/O, logging and CSV/JSON
persistence are outside the modelled core, but the model-call and
skip/exhaustion events are returned as a trace.
-/

/-- Outcome of one model call. -/
inductive LLMRes where
  | exn
  | ok (s : String)

/-- Observable orchestration events: a model call for a field (with the
attempt index), a field skipped for missing attributes, a field exhausted
after all retries. -/
inductive GEvent where
  | call (field : String) (attempt : Nat)
  | skipped (field : String)
  | exhausted (field : String)

/-- The retry loop of `gtc.py generate_test_cases` for one field, counting
down the remaining attempts (`left = 0` iff `attempt == max_retries - 1` in
the source when entered at `(0, max_retries)`).  Yields the value stored for
the field — `some cases` on success, `some []` at exhaustion (both the
parse-failure and the exception arm store the empty list on the final
attempt) — or `none` when the loop body never runs (`max_retries = 0`). -/
def gtc_retry (call : Nat → LLMRes) (dtype : PyVal) (fld : String) :
    Nat → Nat → Option (List PyVal) × List GEvent
  | _, 0 => (Option.none, [])
  | attempt, left + 1 =>
      match call attempt with
      | .exn =>
          if left = 0 then (some [], [.call fld attempt, .exhausted fld])
          else
            let r := gtc_retry call dtype fld (attempt + 1) left
            (r.1, .call fld attempt :: r.2)
      | .ok txt =>
          match (if txt.isEmpty then Option.none
                 else gtc_parse_llm_response txt dtype) with
          | some (c :: cs) => (some (c :: cs), [.call fld attempt])
          | _ =>
              if left = 0 then (some [], [.call fld attempt, .exhausted fld])
              else
                let r := gtc_retry call dtype fld (attempt + 1) left
                (r.1, .call fld attempt :: r.2)

/-- One field of `gtc.py`'s loop: skip if the key is already present;
the subscripts `field_details["data_type"]` etc. at the prompt-build call
site raise `KeyError` on a missing attribute, aborting the whole run
(they are outside the per-attempt `try`); otherwise run the retries and
store the result under the field's key. -/
def gtc_oneField (call : String → Nat → LLMRes) (maxr : Nat)
    (acc : List (String × List PyVal)) (full : String) (det : PyRec) :
    PyRes (List (String × List PyVal)) × List GEvent :=
  if acc.any (fun kv => kv.1 == full) then (.ok acc, [])
  else
    match rlook det "data_type", rlook det "mandatory_field",
        rlook det "primary_key" with
    | some dt, some _, some _ =>
        let r := gtc_retry (call full) dt full 0 maxr
        (match r.1 with
         | some cases => (.ok (acc ++ [(full, cases)]), r.2)
         | Option.none => (.ok acc, r.2))
    | _, _, _ => (.exn, [])

def gtc_goFields (call : String → Nat → LLMRes) (maxr : Nat) (parent : String) :
    List (String × PyRec) → List (String × List PyVal) →
    PyRes (List (String × List PyVal)) × List GEvent
  | [], acc => (.ok acc, [])
  | (fn, det) :: rest, acc =>
      match gtc_oneField call maxr acc (parent ++ "." ++ fn) det with
      | (.exn, ev) => (.exn, ev)
      | (.ok acc2, ev) =>
          let r := gtc_goFields call maxr parent rest acc2
          (r.1, ev ++ r.2)

def gtc_goParents (call : String → Nat → LLMRes) (maxr : Nat) :
    List (String × List (String × PyRec)) → List (String × List PyVal) →
    PyRes (List (String × List PyVal)) × List GEvent
  | [], acc => (.ok acc, [])
  | (pn, fields) :: rest, acc =>
      match gtc_goFields call maxr pn fields acc with
      | (.exn, ev) => (.exn, ev)
      | (.ok acc2, ev) =>
          let r := gtc_goParents call maxr rest acc2
          (r.1, ev ++ r.2)

/-- `gtc.py generate_test_cases` over already-loaded rules: the resulting
field-key → test-case mapping in processing order, or the raised error
(`KeyError` escapes to the outer handler, which logs and re-raises). -/
def gtc_generate_test_cases (rules : List (String × List (String × PyRec)))
    (call : String → Nat → LLMRes) (maxr : Nat) :
    PyRes (List (String × List PyVal)) × List GEvent :=
  gtc_goParents call maxr rules []

/-- The retry loop of `gtcUpdated.py`: an empty response `continue`s (which
skips the final-attempt check, so no exhaustion is logged on that path); a
parse yielding no cases falls through to the final-attempt log; nothing is
ever stored for an exhausted field (the `all_test_cases[...] = []` line is
commented out), so the loop yields `none` at exhaustion. -/
def gtcU_retry (call : Nat → LLMRes) (dtype : PyVal) (fld : String) :
    Nat → Nat → Option (List PyVal) × List GEvent
  | _, 0 => (Option.none, [])
  | attempt, left + 1 =>
      match call attempt with
      | .exn =>
          if left = 0 then (Option.none, [.call fld attempt, .exhausted fld])
          else
            let r := gtcU_retry call dtype fld (attempt + 1) left
            (r.1, .call fld attempt :: r.2)
      | .ok txt =>
          if txt.isEmpty then
            if left = 0 then (Option.none, [.call fld attempt])
            else
              let r := gtcU_retry call dtype fld (attempt + 1) left
              (r.1, .call fld attempt :: r.2)
          else
            match gtcU_parse_llm_response txt dtype with
            | some (c :: cs) => (some (c :: cs), [.call fld attempt])
            | _ =>
                if left = 0 then (Option.none, [.call fld attempt, .exhausted fld])
                else
                  let r := gtcU_retry call dtype fld (attempt + 1) left
                  (r.1, .call fld attempt :: r.2)

/-- One field of `gtcUpdated.py`'s loop: the required-attribute check comes
first — a field missing `data_type`, `mandatory_field` or `primary_key` is
logged and skipped without any model call and without a mapping entry;
otherwise the retries run and only a success stores a mapping entry. -/
def gtcU_oneField (call : String → Nat → LLMRes) (maxr : Nat)
    (acc : List (String × List PyVal)) (full : String) (det : PyRec) :
    List (String × List PyVal) × List GEvent :=
  if (rlook det "data_type").isSome && (rlook det "mandatory_field").isSome &&
     (rlook det "primary_key").isSome then
    let r := gtcU_retry (call full) ((rlook det "data_type").getD PyVal.none)
                full 0 maxr
    match r.1 with
    | some cases => (acc ++ [(full, cases)], r.2)
    | Option.none => (acc, r.2)
  else (acc, [.skipped full])

def gtcU_goFields (call : String → Nat → LLMRes) (maxr : Nat) (parent : String) :
    List (String × PyRec) → List (String × List PyVal) →
    List (String × List PyVal) × List GEvent
  | [], acc => (acc, [])
  | (fn, det) :: rest, acc =>
      let s := gtcU_oneField call maxr acc (parent ++ "." ++ fn) det
      let r := gtcU_goFields call maxr parent rest s.1
      (r.1, s.2 ++ r.2)

def gtcU_goParents (call : String → Nat → LLMRes) (maxr : Nat) :
    List (String × List (String × PyRec)) → List (String × List PyVal) →
    List (String × List PyVal) × List GEvent
  | [], acc => (acc, [])
  | (pn, fields) :: rest, acc =>
      let s := gtcU_goFields call maxr pn fields acc
      let r := gtcU_goParents call maxr rest s.1
      (r.1, s.2 ++ r.2)

/-- `gtcUpdated.py generate_test_cases` over already-loaded, well-shaped
rules (entries that are not dicts with a `fields` key are skipped by the
source; the typed rules input has that shape by construction).  Its outer
`except` logs without re-raising, so no error escapes. -/
def gtcU_generate_test_cases (rules : List (String × List (String × PyRec)))
    (call : String → Nat → LLMRes) (maxr : Nat) :
    List (String × List PyVal) × List GEvent :=
  gtcU_goParents call maxr rules []

/-- The retry loop of `generated_test_cases.py` (fixed `max_retries = 3` in
source, kept as a parameter of the countdown): only a success stores; the
after-N-attempts error is logged only in the exception arm; exhaustion
yields `none` and the caller records the field as skipped. -/
def gentc_retry (call : Nat → LLMRes) (dtype : PyVal) (fld : String) :
    Nat → Nat → Option (List PyVal) × List GEvent
  | _, 0 => (Option.none, [])
  | attempt, left + 1 =>
      match call attempt with
      | .exn =>
          if left = 0 then (Option.none, [.call fld attempt, .exhausted fld])
          else
            let r := gentc_retry call dtype fld (attempt + 1) left
            (r.1, .call fld attempt :: r.2)
      | .ok txt =>
          match gentc_parse_llm_response txt dtype with
          | some (c :: cs) => (some (c :: cs), [.call fld attempt])
          | _ =>
              if left = 0 then (Option.none, [.call fld attempt])
              else
                let r := gentc_retry call dtype fld (attempt + 1) left
                (r.1, .call fld attempt :: r.2)

/-- One field of `generated_test_cases.py`'s loop: duplicate keys are
skipped; missing required attributes raise `KeyError` at the prompt-build
subscripts, aborting the run; an exhausted field is appended to
`skipped_fields` and gets no mapping entry. -/
def gentc_oneField (call : String → Nat → LLMRes)
    (acc : List (String × List PyVal)) (skipped : List String)
    (full : String) (det : PyRec) :
    PyRes (List (String × List PyVal) × List String) × List GEvent :=
  if acc.any (fun kv => kv.1 == full) then (.ok (acc, skipped), [])
  else
    match rlook det "data_type", rlook det "mandatory_field",
        rlook det "primary_key" with
    | some dt, some _, some _ =>
        let r := gentc_retry (call full) dt full 0 3
        (match r.1 with
         | some cases => (.ok (acc ++ [(full, cases)], skipped), r.2)
         | Option.none => (.ok (acc, skipped ++ [full]), r.2))
    | _, _, _ => (.exn, [])

def gentc_goFields (call : String → Nat → LLMRes) (parent : String) :
    List (String × PyRec) → List (String × List PyVal) → List String →
    PyRes (List (String × List PyVal) × List String) × List GEvent
  | [], acc, skipped => (.ok (acc, skipped), [])
  | (fn, det) :: rest, acc, skipped =>
      match gentc_oneField call acc skipped (parent ++ "." ++ fn) det with
      | (.exn, ev) => (.exn, ev)
      | (.ok (acc2, sk2), ev) =>
          let r := gentc_goFields call parent rest acc2 sk2
          (r.1, ev ++ r.2)

def gentc_goParents (call : String → Nat → LLMRes) :
    List (String × List (String × PyRec)) →
    List (String × List PyVal) → List String →
    PyRes (List (String × List PyVal) × List String) × List GEvent
  | [], acc, skipped => (.ok (acc, skipped), [])
  | (pn, fields) :: rest, acc, skipped =>
      match gentc_goFields call pn fields acc skipped with
      | (.exn, ev) => (.exn, ev)
      | (.ok (acc2, sk2), ev) =>
          let r := gentc_goParents call rest acc2 sk2
          (r.1, ev ++ r.2)

/-- `generated_test_cases.py generate_test_cases` over already-loaded rules:
the mapping (success keys only) together with the `skipped_fields` list, or
the raised error. -/
def gentc_generate_test_cases (rules : List (String × List (String × PyRec)))
    (call : String → Nat → LLMRes) :
    PyRes (List (String × List PyVal) × List String) × List GEvent :=
  gentc_goParents call rules [] []

/-! Helper lemmas and shared concrete records for the claims.  The
definitions compiled by well-founded recursion are unsealed so that closed
computations reduce by `rfl` (the kernel reduces `Acc.rec`). -/

unseal pyEq pyEqL pyEqD pyLook jstrChars removeSub removeTrailingCommas
  wordSub gentcFenceA gentcFenceB matchToks tryFrac

/-- Python `v == "t"` holds exactly for the equal string value. -/
theorem pyEq_str_right (v : PyVal) (t : String) :
    pyEq v (.str t) = true ↔ v = .str t := by
  cases v <;> simp [pyEq, numEqTo, numVal]

/-- A candidate record with all four keys, `expected_result = "Pass"` and
the given input value. -/
def passRecB (v : PyVal) : PyRec :=
  [("test_case", .str "TC1"), ("description", .str "d"),
   ("expected_result", .str "Pass"), ("input", v)]

/-- Claim C5: for every candidate test case with `input == null`, each of the
three scripts' type-validation stages returns ok, whatever the declared data
type (including unknown ones) and whatever the `expected_result` value; the
field's mandatory flag is not consulted by any of them. -/
theorem C5_null_input_universally_accepted :
    ∀ (d : PyRec) (dt er : PyVal),
      rlook d "input" = some PyVal.none →
      rlook d "expected_result" = some er →
      okOf (gtc_type_validate (.dict d) dt) = true ∧
      okOf (gtcU_type_validate (.dict d) dt) = true ∧
      okOf (gentc_type_validate (.dict d) dt) = true := by
  intro d dt er hin her
  refine ⟨?_, ?_, ?_⟩
  · unfold gtc_type_validate
    cases hD : pyEq dt (.str "Date") <;>
      cases hS : pyEq dt (.str "String") <;>
        cases hB : pyEq dt (.str "Boolean") <;>
          simp [hD, hS, hB, gtc_validate_date_format, gtc_validate_string_format,
            gtc_validate_boolean_format, pySub, hin, okOf]
  · unfold gtcU_type_validate
    cases hD : pyEq dt (.str "Date") <;>
      cases hS : pyEq dt (.str "String") <;>
        simp [hD, hS, gtcU_validate_date_format, gtcU_validate_string_format,
          pySub, hin, her, okOf, isStrOrNone, isIntLike, isNumLike, isNoneV]
  · unfold gentc_type_validate
    cases hD : pyEq dt (.str "Date") <;>
      cases hS : pyEq dt (.str "String") <;>
        cases hDT : pyEq dt (.str "DateTime") <;>
          cases hL : pyEq dt (.str "Long") <;>
            simp [hD, hS, hDT, hL, gentc_validate_date_format,
              gentc_validate_string_format, gentc_validate_long_format,
              pySub, hin, okOf]

/-- Claim C5 witness. -/
theorem C5_null_input_universally_accepted_witness :
    okOf (gtc_type_validate (.dict (passRecB PyVal.none)) (.str "Date")) = true ∧
    okOf (gtcU_type_validate (.dict (passRecB PyVal.none)) (.str "Date")) = true ∧
    okOf (gentc_type_validate (.dict (passRecB PyVal.none)) (.str "Date")) = true :=
  C5_null_input_universally_accepted (passRecB PyVal.none) (.str "Date")
    (.str "Pass") rfl rfl

/-- The ok-bit computed by `gtc.py`'s boolean validator on a record with a
present, non-null input: rejection happens exactly on a `Pass` record whose
input is not `==`-equal to a member of `valid_booleans`. -/
theorem gtc_bool_ok (d : PyRec) (v er : PyVal)
    (her : rlook d "expected_result" = some er)
    (hin : rlook d "input" = some v) (hne : v ≠ PyVal.none) :
    okOf (gtc_validate_boolean_format (.dict d)) =
      !(pyEq er (.str "Pass") && !(validBooleans.any (fun b => pyEq v b))) := by
  cases v <;>
    first
      | exact absurd rfl hne
      | (simp only [gtc_validate_boolean_format, pySub, her, hin]
         split <;> rename_i h <;> (try simp only [Bool.not_eq_true] at h) <;>
           simp [okOf, h])

/-- Claim C4: for a Boolean field, a `Pass` record with a non-null input is
rejected by `gtc.py`'s boolean validator exactly when the input is outside
the closed set `valid_booleans = {true, false, "True", "False", "true",
"false", 1, 0}` (membership being the code's `in`, i.e. Python `==` against
each member); inputs inside the set are never rejected by this check,
whatever the expected result; in particular the strings `"maybe"` and
`"TRUE"` are rejected. -/
theorem C4_boolean_domain :
    (∀ (d : PyRec) (v : PyVal),
       rlook d "expected_result" = some (.str "Pass") →
       rlook d "input" = some v → v ≠ PyVal.none →
       (okOf (gtc_validate_boolean_format (.dict d)) = false ↔
         (validBooleans.any (fun b => pyEq v b)) = false)) ∧
    (∀ (d : PyRec) (v er : PyVal),
       rlook d "expected_result" = some er →
       rlook d "input" = some v →
       (validBooleans.any (fun b => pyEq v b)) = true →
       okOf (gtc_validate_boolean_format (.dict d)) = true) ∧
    okOf (gtc_validate_boolean_format (.dict (passRecB (.str "maybe")))) = false ∧
    okOf (gtc_validate_boolean_format (.dict (passRecB (.str "TRUE")))) = false := by
  refine ⟨?_, ?_, by rfl, by rfl⟩
  · intro d v her hin hne
    rw [gtc_bool_ok d v (.str "Pass") her hin hne]
    have hp : pyEq (.str "Pass") (.str "Pass") = true := by
      simp [pyEq]
    rw [hp]
    cases hm : validBooleans.any (fun b => pyEq v b) <;> simp [hm]
  · intro d v er her hin hmem
    by_cases hne : v = PyVal.none
    · subst hne
      simp [gtc_validate_boolean_format, pySub, hin, okOf]
    · rw [gtc_bool_ok d v er her hin hne, hmem]
      simp

/-- Claim C4 witness. -/
theorem C4_boolean_domain_witness :
    okOf (gtc_validate_boolean_format (.dict (passRecB (.str "nope")))) = false ∧
    okOf (gtc_validate_boolean_format (.dict (passRecB (.str "false")))) = true := by
  refine ⟨?_, ?_⟩
  · exact (C4_boolean_domain.1 (passRecB (.str "nope")) (.str "nope")
      rfl rfl (by simp)).2 (by rfl)
  · exact C4_boolean_domain.2.1 (passRecB (.str "false")) (.str "false")
      (.str "Pass") rfl rfl (by rfl)

/-- Claim C10: the boolean validator decides membership in `valid_booleans`
by Python `==`, not identity or type: a `Pass` record with float input
`1.0` or `0.0` is accepted (`1.0 == 1`, `0.0 == 0`); the int `2` is
rejected; in general every float input not numerically equal to 0 or 1 is
rejected on a `Pass` record. -/
theorem C10_membership_by_equality :
    okOf (gtc_validate_boolean_format (.dict (passRecB (.float 1)))) = true ∧
    okOf (gtc_validate_boolean_format (.dict (passRecB (.float 0)))) = true ∧
    okOf (gtc_validate_boolean_format (.dict (passRecB (.int 2)))) = false ∧
    (∀ (d : PyRec) (q : ℚ), q ≠ 0 → q ≠ 1 →
       rlook d "expected_result" = some (.str "Pass") →
       rlook d "input" = some (.float q) →
       okOf (gtc_validate_boolean_format (.dict d)) = false) := by
  refine ⟨by rfl, by rfl, by rfl, ?_⟩
  intro d q h0 h1 her hin
  rw [gtc_bool_ok d (.float q) (.str "Pass") her hin (by simp)]
  have hp : pyEq (.str "Pass") (.str "Pass") = true := by simp [pyEq]
  have hm : validBooleans.any (fun b => pyEq (.float q) b) = false := by
    simp [validBooleans, pyEq, numEqTo, numVal, beq_iff_eq, h0, h1]
  rw [hp, hm]
  rfl

/-- Claim C10 witness. -/
theorem C10_membership_by_equality_witness :
    okOf (gtc_validate_boolean_format (.dict (passRecB (.float (5 / 2))))) = false :=
  C10_membership_by_equality.2.2.2 (passRecB (.float (5 / 2))) (5 / 2)
    (by norm_num) (by norm_num) rfl rfl

/-- A Date-field candidate with `expected_result = "Fail"` and the spec
scenario's malformed date input. -/
def failDateRec : PyRec :=
  [("test_case", .str "TC1"), ("description", .str "d"),
   ("expected_result", .str "Fail"), ("input", .str "not-a-date")]

/-- Claim C1 counterexample: `gtc.py`'s date validator flags the record
`{expected_result: "Fail", input: "not-a-date"}` invalid and the validation
loop discards it — the claim that a malformed-date record is flagged *only
when* `expected_result == "Pass"`, and that every such `"Fail"` record is
accepted, is false of `gtc.py` (whose `_validate_date_format` never consults
`expected_result`). -/
theorem C1_counterexample :
    okOf (gtc_validate_date_format (.dict failDateRec)) = false ∧
    runSteps (gtc_step (.str "Date")) [.dict failDateRec] = .ok [] :=
  ⟨rfl, rfl⟩

/-- Claim C1 amended: the claimed behaviour is `gtcUpdated.py`'s.  There,
for a record whose input is present and either not a string or a string
matching none of the accepted formats, the date validator flags it invalid
exactly when `expected_result` is `"Pass"`; in particular every such
`"Fail"` record is accepted.  (`gtc.py` and `generated_test_cases.py`
reject such records regardless of `expected_result`.) -/
theorem C1_amended : ∀ (d : PyRec) (v er : PyVal),
    rlook d "input" = some v → v ≠ PyVal.none →
    rlook d "expected_result" = some er →
    (match v with
     | .str s => gtcU_dateFormats.all (fun f => !strptimeOk f s)
     | _ => true) = true →
    (okOf (gtcU_validate_date_format (.dict d)) = false ↔ er = .str "Pass") := by
  intro d v er hin hne her hnm
  cases v with
  | none => exact absurd rfl hne
  | str s =>
      have hany : gtcU_dateFormats.any (fun f => strptimeOk f s) = false := by
        simp only [List.any_eq_false]
        intro f hf
        have h2 := List.all_eq_true.mp hnm f hf
        simpa using h2
      simp only [gtcU_validate_date_format, pySub, hin, her, hany]
      cases hp : pyEq er (.str "Pass") <;>
        simp [hp, okOf, ← pyEq_str_right]
  | bool b =>
      simp only [gtcU_validate_date_format, pySub, hin, her]
      cases hp : pyEq er (.str "Pass") <;>
        simp [hp, okOf, ← pyEq_str_right]
  | int n =>
      simp only [gtcU_validate_date_format, pySub, hin, her]
      cases hp : pyEq er (.str "Pass") <;>
        simp [hp, okOf, ← pyEq_str_right]
  | float q =>
      simp only [gtcU_validate_date_format, pySub, hin, her]
      cases hp : pyEq er (.str "Pass") <;>
        simp [hp, okOf, ← pyEq_str_right]
  | list xs =>
      simp only [gtcU_validate_date_format, pySub, hin, her]
      cases hp : pyEq er (.str "Pass") <;>
        simp [hp, okOf, ← pyEq_str_right]
  | dict kvs =>
      simp only [gtcU_validate_date_format, pySub, hin, her]
      cases hp : pyEq er (.str "Pass") <;>
        simp [hp, okOf, ← pyEq_str_right]

/-- Claim C1 amended, witness at the spec scenario's record. -/
theorem C1_amended_witness :
    (okOf (gtcU_validate_date_format (.dict failDateRec)) = false ↔
      PyVal.str "Fail" = PyVal.str "Pass") :=
  C1_amended failDateRec (.str "not-a-date") (.str "Fail") rfl
    (by simp) rfl (by rfl)

/-- A record identical to the spec scenario's, with `expected_result`
spelled `"PASS"`. -/
def passUpperRec : PyRec :=
  [("test_case", .str "TC1"), ("description", .str "d"),
   ("expected_result", .str "PASS"), ("input", .str "x")]

/-- Claim C2 counterexample: in `gtc.py`, a record with
`expected_result = "PASS"` — which passes every other check — is
*discarded*, because `_validate_test_case` demands exactly `"Pass"` or
`"Fail"` before the canonicalising assignment ever runs.  (The same holds
in `generated_test_cases.py`.) -/
theorem C2_counterexample :
    runSteps (gtc_step (.str "String")) [.dict passUpperRec] = .ok [] ∧
    runSteps (gentc_step (.str "String")) [.dict passUpperRec] = .ok [] :=
  ⟨rfl, rfl⟩

/-- The canonical token `gtcUpdated.py` writes for a case-insensitive
pass/fail value. -/
def canonTok (s : String) : String :=
  if strLower s = "pass" then "Pass" else "Fail"

/-- Claim C2 amended: the claimed behaviour is `gtcUpdated.py`'s, which
canonicalises `expected_result` case-insensitively *before* validating: a
record whose `expected_result` lowercases to `"pass"` or `"fail"` and whose
canonicalised form passes validation is accepted with `expected_result`
stored as exactly the canonical token, and re-processing the stored record
changes nothing (idempotence).  In `gtc.py` and `generated_test_cases.py`,
only records already bearing the exact tokens survive (see the
counterexample); for those, acceptance and idempotence hold there too. -/
theorem C2_amended : ∀ (d : PyRec) (s : String) (dt : PyVal),
    (rlook d "input").isSome = true →
    rlook d "expected_result" = some (.str s) →
    (strLower s = "pass" ∨ strLower s = "fail") →
    okOf (gtcU_validate_test_case
      (.dict (rsetL d "expected_result" (.str (canonTok s)))) dt) = true →
    runSteps (gtcU_step dt) [.dict d] =
      .ok [.dict (rsetL d "expected_result" (.str (canonTok s)))] ∧
    rlook (rsetL d "expected_result" (.str (canonTok s))) "expected_result" =
      some (.str (canonTok s)) ∧
    runSteps (gtcU_step dt)
      [.dict (rsetL d "expected_result" (.str (canonTok s)))] =
      .ok [.dict (rsetL d "expected_result" (.str (canonTok s)))] := by
  intro d s dt hinp her hcase hok
  have hlook : rlook (rsetL d "expected_result" (.str (canonTok s)))
      "expected_result" = some (.str (canonTok s)) :=
    rlook_rsetL_same d "expected_result" (.str (canonTok s))
  have hinp1 : (rlook (rsetL d "expected_result" (.str (canonTok s)))
      "input").isSome = true := by
    rw [rlook_rsetL_other d "expected_result" "input" (.str (canonTok s))
      (by decide)]
    exact hinp
  have hvres : ∃ m, gtcU_validate_test_case
      (.dict (rsetL d "expected_result" (.str (canonTok s)))) dt =
        .ok (true, m) := by
    cases hv : gtcU_validate_test_case
        (.dict (rsetL d "expected_result" (.str (canonTok s)))) dt with
    | exn => rw [hv] at hok; exact absurd hok (by simp [okOf])
    | ok p =>
        obtain ⟨b, m⟩ := p
        cases b with
        | false => rw [hv] at hok; exact absurd hok (by simp [okOf])
        | true => exact ⟨m, rfl⟩
  obtain ⟨m, hv⟩ := hvres
  have hnorm : gtcU_step dt (.dict d) =
      .ok (some (.dict (rsetL d "expected_result" (.str (canonTok s))))) := by
    rcases hcase with hc | hc
    · have hct : canonTok s = "Pass" := by simp [canonTok, hc]
      rw [hct] at hv hinp1 ⊢
      simp [gtcU_step, her, hc, hv, hinp1]
    · have hct : canonTok s = "Fail" := by
        simp [canonTok, hc]
      have hne2 : ¬ (strLower s = "pass") := by
        rw [hc]; decide
      rw [hct] at hv hinp1 ⊢
      simp [gtcU_step, her, hc, hne2, hv, hinp1]
  have hnorm2 : gtcU_step dt
      (.dict (rsetL d "expected_result" (.str (canonTok s)))) =
      .ok (some (.dict (rsetL d "expected_result" (.str (canonTok s))))) := by
    have hself : rsetL (rsetL d "expected_result" (.str (canonTok s)))
        "expected_result" (.str (canonTok s)) =
        rsetL d "expected_result" (.str (canonTok s)) :=
      rsetL_rsetL_same d "expected_result" (.str (canonTok s)) (.str (canonTok s))
    rcases hcase with hc | hc
    · have hct : canonTok s = "Pass" := by simp [canonTok, hc]
      have hsl : strLower "Pass" = "pass" := rfl
      rw [hct] at hv hinp1 hlook hself ⊢
      simp [gtcU_step, hlook, hself, hv, hinp1, hsl]
    · have hct : canonTok s = "Fail" := by simp [canonTok, hc]
      have hsl : strLower "Fail" = "fail" := rfl
      rw [hct] at hv hinp1 hlook hself ⊢
      simp [gtcU_step, hlook, hself, hv, hinp1, hsl]
  refine ⟨?_, hlook, ?_⟩
  · simp only [runSteps, hnorm]
  · simp only [runSteps, hnorm2]

/-- Claim C2 amended, witness: the `"PASS"` record of the counterexample is
accepted by `gtcUpdated.py` and stored with `expected_result = "Pass"`. -/
theorem C2_amended_witness :
    runSteps (gtcU_step (.str "String")) [.dict passUpperRec] =
      .ok [.dict (rsetL passUpperRec "expected_result"
        (.str (canonTok "PASS")))] ∧
    rlook (rsetL passUpperRec "expected_result" (.str (canonTok "PASS")))
      "expected_result" = some (.str (canonTok "PASS")) ∧
    runSteps (gtcU_step (.str "String"))
      [.dict (rsetL passUpperRec "expected_result" (.str (canonTok "PASS")))] =
      .ok [.dict (rsetL passUpperRec "expected_result"
        (.str (canonTok "PASS")))] :=
  C2_amended passUpperRec "PASS" (.str "String") rfl rfl (Or.inl rfl) (by rfl)

/-- A fenced model response whose JSON array carries a single trailing comma
before the closing bracket. -/
def fencedCommaRaw : String :=
  "```json\n[\x7b\"test_case\": \"TC1\", \"description\": \"d\", " ++
  "\"expected_result\": \"Pass\", \"input\": \"x\"\x7d,]\n```"

/-- The same response unwrapped and without the trailing comma. -/
def plainArrayText : String :=
  "[\x7b\"test_case\": \"TC1\", \"description\": \"d\", " ++
  "\"expected_result\": \"Pass\", \"input\": \"x\"\x7d]"

/-- Claim C6 counterexample: `gtc.py`'s `_parse_llm_response` performs no
trailing-comma repair — on the fenced, trailing-comma response it fails with
a JSON parse error and returns `None` instead of yielding the parsed
array. -/
theorem C6_counterexample :
    gtc_parse_llm_response fencedCommaRaw (.str "String") = Option.none := rfl

/-- Claim C6 amended: the claimed repair is `gtcUpdated.py`'s.  Its cleaning
passes strip the fence and remove the trailing comma, so the scenario input
parses to exactly what the unwrapped, comma-free text parses to, and its
`_parse_llm_response` yields the record; `gtc.py` (see the counterexample)
and `generated_test_cases.py` fail on the same input and return `None`. -/
theorem C6_amended :
    jsonParse (gtcU_clean fencedCommaRaw) = jsonParse plainArrayText.data ∧
    gtcU_parse_llm_response fencedCommaRaw (.str "String") =
      some [.dict [("test_case", .str "TC1"), ("description", .str "d"),
        ("expected_result", .str "Pass"), ("input", .str "x")]] ∧
    gentc_parse_llm_response fencedCommaRaw (.str "String") = Option.none :=
  ⟨rfl, rfl, rfl⟩

/-- A model response whose array holds one valid record and a bare number. -/
def arrayWithNumberRaw : String :=
  "[\x7b\"test_case\": \"TC1\", \"description\": \"d\", " ++
  "\"expected_result\": \"Pass\", \"input\": \"x\"\x7d, 42]"

/-- Claim C7 counterexample: in `gtc.py`, a bare number in the parsed array
reaches `all(field in case for ...)`, raising `TypeError` (a number is not
iterable), which the blanket handler turns into `None` — the *whole*
response is rejected, valid record included, instead of the element being
dropped individually. -/
theorem C7_counterexample :
    gtc_parse_llm_response arrayWithNumberRaw (.str "String") = Option.none := rfl

set_option maxHeartbeats 2000000 in
/-- Claim C7 amended: the claimed behaviour is `gtcUpdated.py`'s, whose loop
skips any non-dict element with a warning and continues: processing a parsed
array is identical to processing only its dict elements, an all-dropped
array leaves the (legitimately empty) accepted sequence, and the
counterexample input yields the remaining valid record.  (In `gtc.py` and
`generated_test_cases.py` a non-iterable element aborts the whole response;
and note that `gtcUpdated.py`'s `_parse_llm_response` then maps an empty
accepted sequence to `None` rather than returning it.) -/
theorem C7_amended :
    (∀ (l : List PyVal) (dt : PyVal),
       runSteps (gtcU_step dt) l =
         runSteps (gtcU_step dt)
           (l.filter (fun v => match v with | .dict _ => true | _ => false))) ∧
    runSteps (gtcU_step (.str "String")) [.str "junk", .int 42] = .ok [] ∧
    gtcU_parse_llm_response arrayWithNumberRaw (.str "String") =
      some [.dict [("test_case", .str "TC1"), ("description", .str "d"),
        ("expected_result", .str "Pass"), ("input", .str "x")]] := by
  refine ⟨?_, rfl, rfl⟩
  intro l dt
  induction l with
  | nil => rfl
  | cons v rest ih =>
      cases v with
      | dict d => simp only [List.filter, runSteps, ih]
      | none => simp only [List.filter, runSteps, gtcU_step, ih]
      | bool b => simp only [List.filter, runSteps, gtcU_step, ih]
      | int n => simp only [List.filter, runSteps, gtcU_step, ih]
      | float q => simp only [List.filter, runSteps, gtcU_step, ih]
      | str s => simp only [List.filter, runSteps, gtcU_step, ih]
      | list xs => simp only [List.filter, runSteps, gtcU_step, ih]

/-- The canonical token `gtc.py` writes back into an accepted record (after
validation the current value is the exact string `"Pass"` or `"Fail"`, so
the write is in fact an identity). -/
def gtcNormTok (d : PyRec) : PyVal :=
  match rlook d "expected_result" with
  | some (.str s) => .str (if strLower s = "pass" then "Pass" else "Fail")
  | _ => PyVal.none

/-- Shape of an accepted element of `gtc.py`'s loop: a dict, kept as itself
with only the `expected_result` entry reassigned to its canonical token. -/
theorem gtc_step_accepts (dt c r : PyVal) :
    gtc_step dt c = .ok (some r) →
    ∃ d, c = .dict d ∧ r = .dict (rsetL d "expected_result" (gtcNormTok d)) := by
  intro h
  unfold gtc_step at h
  cases hv : gtc_validate_test_case c dt with
  | exn => rw [hv] at h; simp at h
  | ok p =>
      obtain ⟨b, m⟩ := p
      rw [hv] at h
      cases b with
      | false => simp at h
      | true =>
          cases c with
          | dict d =>
              simp only [PyRes.ok.injEq] at h
              cases hl : rlook d "expected_result" with
              | none => rw [hl] at h; simp at h
              | some v =>
                  rw [hl] at h
                  cases v <;> simp at h
                  exact ⟨d, rfl, by rw [← h]; simp [gtcNormTok, hl]⟩
          | none => simp at h
          | bool b2 => simp at h
          | int n => simp at h
          | float q => simp at h
          | str s => simp at h
          | list xs => simp at h

/-- Claim C9: every record accepted by `gtc.py`'s validation loop is one of
the parsed dicts, in input order (the accepted outputs form a sublist image
of the parsed array), changed in no key other than `expected_result`, which
is reassigned its canonical capitalized token. -/
theorem C9_acceptance_frame :
    ∀ (records : List PyVal) (dt : PyVal) (out : List PyVal),
    runSteps (gtc_step dt) records = .ok out →
    ∃ srcs : List PyRec,
      (srcs.map PyVal.dict).Sublist records ∧
      out = srcs.map
        (fun d => PyVal.dict (rsetL d "expected_result" (gtcNormTok d))) ∧
      ∀ d ∈ srcs, ∀ k, k ≠ "expected_result" →
        rlook (rsetL d "expected_result" (gtcNormTok d)) k = rlook d k := by
  intro records dt out h
  induction records generalizing out with
  | nil =>
      simp only [runSteps] at h
      cases h
      exact ⟨[], by simp, by simp, by simp⟩
  | cons c cs ih =>
      simp only [runSteps] at h
      cases hs : gtc_step dt c with
      | exn => rw [hs] at h; cases h
      | ok o =>
          rw [hs] at h
          cases o with
          | none =>
              obtain ⟨srcs, hsub, hout, hfr⟩ := ih out h
              exact ⟨srcs, hsub.cons c, hout, hfr⟩
          | some r =>
              cases hrest : runSteps (gtc_step dt) cs with
              | exn => rw [hrest] at h; cases h
              | ok rest =>
                  rw [hrest] at h
                  cases h
                  obtain ⟨d, hc, hr⟩ := gtc_step_accepts dt c r hs
                  obtain ⟨srcs, hsub, hout, hfr⟩ := ih rest hrest
                  refine ⟨d :: srcs, ?_, ?_, ?_⟩
                  · rw [hc]
                    exact List.Sublist.cons₂ (.dict d) hsub
                  · simp [hr, hout]
                  · intro d2 hd2 k hk
                    rcases List.mem_cons.mp hd2 with h1 | h2
                    · subst h1
                      exact rlook_rsetL_other d2 "expected_result" k
                        (gtcNormTok d2) hk
                    · exact hfr d2 h2 k hk

/-- Claim C9 witness: a two-element parsed array (one valid Boolean record,
one junk string) processed for a Boolean field. -/
theorem C9_acceptance_frame_witness :
    ∃ srcs : List PyRec,
      (srcs.map PyVal.dict).Sublist
        [PyVal.dict (passRecB (.str "true")), PyVal.str "junk"] ∧
      [PyVal.dict (rsetL (passRecB (.str "true")) "expected_result"
          (gtcNormTok (passRecB (.str "true"))))] =
        srcs.map
          (fun d => PyVal.dict (rsetL d "expected_result" (gtcNormTok d))) ∧
      ∀ d ∈ srcs, ∀ k, k ≠ "expected_result" →
        rlook (rsetL d "expected_result" (gtcNormTok d)) k = rlook d k :=
  C9_acceptance_frame [.dict (passRecB (.str "true")), .str "junk"]
    (.str "Boolean")
    [.dict (rsetL (passRecB (.str "true")) "expected_result"
      (gtcNormTok (passRecB (.str "true"))))] rfl

/-- A complete field-attribute record (String type, mandatory, not a key). -/
def detStringFull : PyRec :=
  [("data_type", .str "String"), ("mandatory_field", .bool true),
   ("primary_key", .bool false)]

/-- Claim C3 counterexample: in `generated_test_cases.py`, a field whose
model responses are empty on all three attempts ends up in
`skipped_fields`, and its key is *absent* from the final mapping (which
here is empty) — not present with an empty sequence as claimed. -/
theorem C3_counterexample :
    gentc_generate_test_cases [("P", [("f1", detStringFull)])]
      (fun _ _ => .ok "") =
      (.ok ([], ["P.f1"]),
       [.call "P.f1" 0, .call "P.f1" 1, .call "P.f1" 2]) := rfl

/-- Claim C3 amended: the claimed behaviour is `gtc.py`'s.  There, a field
whose three attempts all yield an empty response is stored in the mapping
under its key with the empty list, the exhaustion is logged, no exception
escapes, and processing continues to the next field (here: a second field
whose first response parses to a non-empty case list).  In
`generated_test_cases.py` (see the counterexample) and `gtcUpdated.py`, the
exhausted field's key is instead absent from the mapping. -/
theorem C3_amended : ∀ (p f1 f2 : String) (det1 det2 : PyRec)
    (dt1 dt2 m1 k1 m2 k2 : PyVal) (call : String → Nat → LLMRes)
    (g : String) (c : PyVal) (cs : List PyVal),
    rlook det1 "data_type" = some dt1 →
    rlook det1 "mandatory_field" = some m1 →
    rlook det1 "primary_key" = some k1 →
    rlook det2 "data_type" = some dt2 →
    rlook det2 "mandatory_field" = some m2 →
    rlook det2 "primary_key" = some k2 →
    (p ++ "." ++ f1) ≠ (p ++ "." ++ f2) →
    (∀ a, call (p ++ "." ++ f1) a = .ok "") →
    call (p ++ "." ++ f2) 0 = .ok g →
    g.isEmpty = false →
    gtc_parse_llm_response g dt2 = some (c :: cs) →
    gtc_generate_test_cases [(p, [(f1, det1), (f2, det2)])] call 3 =
      (.ok [(p ++ "." ++ f1, []), (p ++ "." ++ f2, c :: cs)],
       [.call (p ++ "." ++ f1) 0, .call (p ++ "." ++ f1) 1,
        .call (p ++ "." ++ f1) 2, .exhausted (p ++ "." ++ f1),
        .call (p ++ "." ++ f2) 0]) := by
  intro p f1 f2 det1 det2 dt1 dt2 m1 k1 m2 k2 call g c cs
  intro h1 h2 h3 h4 h5 h6 hne hc1 hc2 hg hparse
  have hbe : ((p ++ "." ++ f1) == (p ++ "." ++ f2)) = false :=
    beq_eq_false_iff_ne.mpr hne
  have hr1 : gtc_retry (call (p ++ "." ++ f1)) dt1 (p ++ "." ++ f1) 0 3 =
      (some [], [.call (p ++ "." ++ f1) 0, .call (p ++ "." ++ f1) 1,
        .call (p ++ "." ++ f1) 2, .exhausted (p ++ "." ++ f1)]) := by
    show gtc_retry _ _ _ 0 (2 + 1) = _
    rw [gtc_retry, hc1 0]
    show (let r := gtc_retry _ _ _ 1 (1 + 1); (r.1, _ :: r.2)) = _
    rw [gtc_retry, hc1 1]
    show (let r := (let r2 := gtc_retry _ _ _ 2 (0 + 1); (r2.1, _ :: r2.2));
          (r.1, _ :: r.2)) = _
    rw [gtc_retry, hc1 2]
    have he : "".isEmpty = true := rfl
    simp [he]
  have hr2 : gtc_retry (call (p ++ "." ++ f2)) dt2 (p ++ "." ++ f2) 0 3 =
      (some (c :: cs), [.call (p ++ "." ++ f2) 0]) := by
    show gtc_retry _ _ _ 0 (2 + 1) = _
    rw [gtc_retry, hc2]
    simp only [hg, Bool.false_eq_true, if_false, hparse]
  simp only [gtc_generate_test_cases, gtc_goParents, gtc_goFields,
    gtc_oneField, List.any_nil, List.any_cons, h1, h2, h3, h4, h5, h6,
    hbe, hr1, hr2, Bool.if_false_left, Bool.and_false, Bool.false_or,
    Bool.or_false, if_false, List.append_nil, List.nil_append]
  simp [hne]

/-- Claim C3 amended, witness: field `P.f1` always gets empty responses,
field `P.f2` gets a good response on its first attempt. -/
theorem C3_amended_witness :
    gtc_generate_test_cases [("P", [("f1", detStringFull), ("f2", detStringFull)])]
      (fun f _ => if f = "P.f2" then .ok plainArrayText else .ok "") 3 =
      (.ok [("P.f1", []),
            ("P.f2", [.dict [("test_case", .str "TC1"), ("description", .str "d"),
              ("expected_result", .str "Pass"), ("input", .str "x")]])],
       [.call "P.f1" 0, .call "P.f1" 1, .call "P.f1" 2, .exhausted "P.f1",
        .call "P.f2" 0]) :=
  C3_amended "P" "f1" "f2" detStringFull detStringFull
    (.str "String") (.str "String") (.bool true) (.bool false)
    (.bool true) (.bool false)
    (fun f _ => if f = "P.f2" then .ok plainArrayText else .ok "")
    plainArrayText
    (.dict [("test_case", .str "TC1"), ("description", .str "d"),
      ("expected_result", .str "Pass"), ("input", .str "x")]) []
    rfl rfl rfl rfl rfl rfl (by decide) (fun _ => rfl) rfl rfl rfl

/-- A field-attribute record missing `data_type`. -/
def detMissingType : PyRec :=
  [("mandatory_field", .bool true), ("primary_key", .bool false)]

/-- Claim C8 counterexample: in `gtc.py`, a field definition missing
`data_type` raises `KeyError` at the prompt-build subscripts, outside the
per-attempt handler; the outer handler logs and re-raises, aborting the
whole run with no model call — the following intact field is never
processed, contradicting "skips and continues". -/
theorem C8_counterexample :
    gtc_generate_test_cases
      [("P", [("fbad", detMissingType), ("fgood", detStringFull)])]
      (fun _ _ => .ok "") 3 = (.exn, []) := rfl

/-- Claim C8 amended: the claimed behaviour is `gtcUpdated.py`'s, whose
required-attribute check precedes everything else for the field: a field
definition missing `data_type`, `mandatory_field` or `primary_key` is
logged as skipped, triggers no model call, gets no mapping entry, and the
run continues exactly as if the field were not there.  (`gtc.py` and
`generated_test_cases.py` instead abort the whole run — see the
counterexample.) -/
theorem C8_amended : ∀ (p fb : String) (det : PyRec)
    (rest : List (String × PyRec)) (call : String → Nat → LLMRes) (maxr : Nat),
    ((rlook det "data_type").isSome && (rlook det "mandatory_field").isSome &&
     (rlook det "primary_key").isSome) = false →
    gtcU_generate_test_cases [(p, (fb, det) :: rest)] call maxr =
      ((gtcU_generate_test_cases [(p, rest)] call maxr).1,
       .skipped (p ++ "." ++ fb) ::
         (gtcU_generate_test_cases [(p, rest)] call maxr).2) := by
  intro p fb det rest call maxr hmiss
  simp only [gtcU_generate_test_cases, gtcU_goParents, gtcU_goFields,
    gtcU_oneField, hmiss, Bool.false_eq_true, if_false, List.nil_append,
    List.append_nil, List.cons_append, List.singleton_append]

/-- Claim C8 amended, witness. -/
theorem C8_amended_witness :
    gtcU_generate_test_cases
      [("P", [("fbad", detMissingType), ("f2", detStringFull)])]
      (fun _ _ => .ok "") 3 =
      ((gtcU_generate_test_cases [("P", [("f2", detStringFull)])]
          (fun _ _ => .ok "") 3).1,
       .skipped "P.fbad" ::
         (gtcU_generate_test_cases [("P", [("f2", detStringFull)])]
           (fun _ _ => .ok "") 3).2) :=
  C8_amended "P" "fbad" detMissingType [("f2", detStringFull)]
    (fun _ _ => .ok "") 3 rfl
